import Mathlib

/-!
Verification of the conjoint-analysis backend (`conjoint-backend/app.py` and
`conjoint-backend/estimate_from_survey_cli.py`) against its natural-language
specification.  The Python functions are shallowly embedded as Lean
definitions: pandas series become lists, dictionaries become insertion-ordered
association lists, raised exceptions become `Except.error`, and machine floats
that only ever hold small exact values are modelled by `ℚ` (the design matrix,
whose entries are exactly -1.0, 0.0, 1.0) or by `ℝ` (the simulation and
market-share engine, whose claims are algebraic identities).
-/

namespace Conjoint

/-! ## Generic Python-style helpers -/

/-- Python cell values as read from a pandas table: a numeric cell, a string
cell, or a missing value (`NaN`).  Numeric cells are modelled by `ℚ`; every
numeric literal appearing in the verified scenarios is an integer, which the
model represents exactly. -/
inductive Cell where
  | num (q : ℚ)
  | str (s : String)
  | blank
deriving DecidableEq, Repr

/-- `pd.isna` on an optional cell (`none` models Python `None`, for which
`pd.isna(None)` is `True`). -/
def isnaOpt : Option Cell → Bool
  | none => true
  | some .blank => true
  | some _ => false

/-- `pd.isna` on a cell. -/
def isna (c : Cell) : Bool := isnaOpt (some c)

/-- Python `int()` truncates a float toward zero. -/
def ratTrunc (q : ℚ) : Int := q.num / (q.den : Int)

/-- Characters of a string with surrounding whitespace removed: the
char-level model of Python `str.strip()`.  (Core `String.trim` is
observationally the same but does not reduce inside the kernel, so the
development carries its own structural version.) -/
def stripChars (cs : List Char) : List Char :=
  ((cs.dropWhile Char.isWhitespace).reverse.dropWhile Char.isWhitespace).reverse

/-- Python `s.strip()`. -/
def pyStrip (s : String) : String := String.mk (stripChars s.toList)

/-- ASCII lower-casing of one character (`str.lower()` at the granularity
the sheet headers and attribute names need). -/
def pyLowerChar (c : Char) : Char :=
  if 65 ≤ c.toNat ∧ c.toNat ≤ 90 then Char.ofNat (c.toNat + 32) else c

/-- Python `s.lower()`. -/
def pyLower (s : String) : String := String.mk (s.toList.map pyLowerChar)

/-- ASCII upper-casing of one character. -/
def pyUpperChar (c : Char) : Char :=
  if 97 ≤ c.toNat ∧ c.toNat ≤ 122 then Char.ofNat (c.toNat - 32) else c

/-- Python `s.upper()`. -/
def pyUpper (s : String) : String := String.mk (s.toList.map pyUpperChar)

/-- Structural prefix test on character lists. -/
def isPrefixChars : List Char → List Char → Bool
  | [], _ => true
  | _ :: _, [] => false
  | a :: as, b :: bs => a = b && isPrefixChars as bs

/-- Python `s.startswith(p)`. -/
def pyStartsWith (s p : String) : Bool := isPrefixChars p.toList s.toList

/-- Python `s.endswith(p)`. -/
def pyEndsWith (s p : String) : Bool :=
  isPrefixChars p.toList.reverse s.toList.reverse

/-- Digits-only parse of a character list: `some n` iff the list is nonempty
and all digits, matching a full `(\d+)` regex group. -/
def digitsToNat (cs : List Char) : Option Nat :=
  if cs ≠ [] ∧ cs.all Char.isDigit then
    some (cs.foldl (fun acc c => acc * 10 + (c.toNat - 48)) 0)
  else none

/-- Python `int(s)` on a stripped character list: an optional minus sign
followed by digits. -/
def parseIntChars (cs : List Char) : Option Int :=
  match cs with
  | [] => none
  | c :: rest =>
    if c.toNat = 45 then (digitsToNat rest).map (fun n => -(n : Int))
    else (digitsToNat cs).map (fun n => (n : Int))

/-- `s.split(sep)` for a one-character separator, on characters. -/
def splitOnCharList (sep : Char) : List Char → List (List Char)
  | [] => [[]]
  | c :: rest =>
    if c = sep then [] :: splitOnCharList sep rest
    else
      match splitOnCharList sep rest with
      | [] => [[c]]
      | h :: t => (c :: h) :: t

/-- Python `s.split(",")`. -/
def pySplitComma (s : String) : List String :=
  (splitOnCharList (Char.ofNat 44) s.toList).map String.mk

/-- Split at the first occurrence of `"__"`: `some (before, after)` iff the
separator occurs; the model of `"__" in k` plus `k.split("__", 1)`. -/
def splitFirstDunder : List Char → Option (List Char × List Char)
  | [] => none
  | [_] => none
  | a :: b :: rest =>
    if a.toNat = 95 ∧ b.toNat = 95 then some ([], rest)
    else
      match splitFirstDunder (b :: rest) with
      | some p => some (a :: p.1, p.2)
      | none => none

/-- Python `str(x)` for an optional cell: `str(None) = "None"`,
`str(nan) = "nan"`.  For a non-integer numeric cell Python's float `repr` is
approximated by `toString`; no claim in this development depends on the
rendering of a non-integer numeric cell. -/
def pyStrOpt : Option Cell → String
  | none => "None"
  | some (.num q) => if q.den = 1 then toString q.num else toString q
  | some (.str s) => s
  | some .blank => "nan"

/-- Python `str(x)` for a cell. -/
def pyStr (c : Cell) : String := pyStrOpt (some c)

/-- Python `int(x)` on a cell: truncates numerics, parses integer strings,
raises `ValueError`/`TypeError` otherwise (modelled as `Except.error`). -/
def pyInt (c : Cell) : Except String Int :=
  match c with
  | .num q => .ok (ratTrunc q)
  | .str s =>
    match parseIntChars (stripChars s.toList) with
    | some n => .ok n
    | none => .error ("invalid literal for int(): " ++ s)
  | .blank => .error "cannot convert float NaN to integer"

/-- A row of a pandas `DataFrame`: column name to cell, in column order.
Missing keys model columns absent from the sheet. -/
abbrev Row := List (String × Cell)

/-- A pandas `DataFrame`: a column list plus one `Row` per table row. -/
structure DataFrame where
  cols : List String
  rows : List Row
deriving DecidableEq, Repr

/-- `row[c]` / `row.get(c)`: the optional cell of column `c`. -/
def rowGet (r : Row) (c : String) : Option Cell := r.lookup c

/-- `row.get(c, '')`: column lookup defaulting to the empty string, as used by
the survey parser. -/
def rowGetD (r : Row) (c : String) : Cell := (rowGet r c).getD (.str "")

/-! ## Design matrix builder (`app.py` lines 104-161) -/

/-- Attribute definition as produced by `parse_definitions_sheet` /
consumed by `build_design_matrix`: a name, the ordered level list and an
optional reference level. -/
structure AttrDef where
  name : String
  levels : List String
  reference : Option String
deriving DecidableEq, Repr

/-- The reference level used by `effect_code`: the explicit `reference` when
given, otherwise `levels[-1]` (the last level).  Python raises `IndexError`
on an empty level list; the spec requires at least 2 levels, so the junk
default `""` returned by `getLastD` on `[]` is outside every claim's domain. -/
def resolveReference (levels : List String) (reference : Option String) : String :=
  match reference with
  | some r => r
  | none => levels.getLastD ""

/-- One row of the effects-coded block of `effect_code` (`app.py` 104-134):
a value not in `levels` is coerced to the reference (line 124); each
non-reference level contributes a column that is `1.0` on equality and `0.0`
otherwise (lines 126-129); rows equal to the reference are overwritten to
`-1.0` in every column of the block (lines 131-132). -/
def effect_code_row (levels : List String) (ref : String) (v : String) : List ℚ :=
  let v' := if v ∈ levels then v else ref
  let cats := levels.filter (fun l => l ≠ ref)
  if v' = ref then cats.map (fun _ => (-1 : ℚ))
  else cats.map (fun c => if v' = c then (1 : ℚ) else 0)

/-- The effects-coded block: column names `{series.name}__{c}` for each
non-reference level `c`, and one coded row per series entry. -/
structure CodedBlock where
  colNames : List String
  rows : List (List ℚ)
deriving DecidableEq, Repr

/-- `effect_code(series, levels, reference)` (`app.py` 104-134), the series
already converted to strings (`series.astype(str)` is applied by the caller
`build_design_matrix` and again at line 123). -/
def effect_code (series : List String) (name : String) (levels : List String)
    (reference : Option String) : CodedBlock :=
  let ref := resolveReference levels reference
  let cats := levels.filter (fun l => l ≠ ref)
  { colNames := cats.map (fun c => name ++ "__" ++ c)
    rows := series.map (effect_code_row levels ref) }

/-- The design matrix: column names (with the constant column) and rows. -/
structure DesignMatrix where
  cols : List String
  rows : List (List ℚ)
deriving DecidableEq, Repr

/-- Concatenate coded blocks column-wise (`pd.concat(X_parts, axis=1)`); the
blocks all carry one row per data row. -/
def concatBlocks (parts : List CodedBlock) (nRows : Nat) : DesignMatrix :=
  { cols := (parts.map CodedBlock.colNames).flatten
    rows := (List.range nRows).map (fun i =>
      (parts.map (fun p => p.rows.getD i [])).flatten) }

/-- `build_design_matrix(df, attributes)` (`app.py` 136-161): effect-code each
attribute column (raising if the column is missing from the data, line 154),
concatenate, and prepend the constant column `const` of `1.0`
(`sm.add_constant`, line 159).  `pd.concat` raises on an empty part list. -/
def build_design_matrix (df : DataFrame) (attributes : List AttrDef) :
    Except String DesignMatrix := do
  let parts ← attributes.mapM (fun attr => do
    if attr.name ∈ df.cols then
      pure (effect_code (df.rows.map (fun r => pyStrOpt (rowGet r attr.name)))
        attr.name attr.levels attr.reference)
    else
      throw ("Attribute column missing in data: " ++ attr.name))
  if parts.isEmpty then
    throw "No objects to concatenate"
  let X := concatBlocks parts df.rows.length
  return { cols := "const" :: X.cols, rows := X.rows.map (fun r => (1 : ℚ) :: r) }

end Conjoint

namespace Conjoint

/-! ## Python floats at diagnostics granularity -/

/-- A Python float as the diagnostics logic observes it: a finite value
(modelled exactly by `ℚ`), a signed infinity, or `NaN`.  This is the
granularity needed by the pseudo-R² derivation of `app.py` 521-527: the code
only tests `== 0`, `np.isnan` and divides one finite value by another. -/
inductive PyFloat where
  | num (q : ℚ)
  | inf (pos : Bool)
  | nan
deriving DecidableEq, Repr

/-- `np.isnan`. -/
def PyFloat.isnan : PyFloat → Bool
  | .nan => true
  | _ => false

/-- `np.isinf`. -/
def PyFloat.isinf : PyFloat → Bool
  | .inf _ => true
  | _ => false

/-- IEEE division at the granularity the diagnostics need: a finite quotient
is exact, a finite value divided by an infinity is `0`, division by zero
yields `NaN` or a signed infinity, `NaN` propagates. -/
def PyFloat.div : PyFloat → PyFloat → PyFloat
  | .nan, _ => .nan
  | _, .nan => .nan
  | .num a, .num b =>
    if b = 0 then (if a = 0 then .nan else .inf (decide (0 ≤ a)))
    else .num (a / b)
  | .num _, .inf _ => .num 0
  | .inf s, .num b => .inf (s = decide (0 ≤ b))
  | .inf _, .inf _ => .nan

/-- IEEE subtraction, exact on finite values. -/
def PyFloat.sub : PyFloat → PyFloat → PyFloat
  | .nan, _ => .nan
  | _, .nan => .nan
  | .num a, .num b => .num (a - b)
  | .num _, .inf s => .inf (!s)
  | .inf s, .num _ => .inf s
  | .inf s, .inf t => if s = t then .nan else .inf s

/-! ## Pseudo-R² diagnostics entry (`app.py` 521-527, CLI 193-199) -/

/-- The fallback branch of the pseudo-R² derivation (`app.py` 524-527): read
the `null_log_likelihood` diagnostic; Python's
`null_ll not in (None, 0, 0.0) and not np.isnan(null_ll)` admits the entry
exactly when the value is present, nonzero under float `==`, and not `NaN`
(an infinity passes both tests); the entry is then `1.0 - log_likelihood /
null_ll`. -/
def pseudo_r2_fallback (log_likelihood : PyFloat) (null_ll : Option PyFloat) :
    Option PyFloat :=
  match null_ll with
  | none => none
  | some v =>
    if v = .num 0 ∨ v.isnan then none
    else some (PyFloat.sub (.num 1) (PyFloat.div log_likelihood v))

/-- The full pseudo-R² diagnostics entry (`app.py` 521-527): take the
solver's `prsquared` when it is present and not `NaN`, otherwise apply the
`1 - llf/llnull` fallback. -/
def pseudo_r2_entry (prsquared : Option PyFloat) (log_likelihood : PyFloat)
    (null_ll : Option PyFloat) : Option PyFloat :=
  match prsquared with
  | some p => if p.isnan then pseudo_r2_fallback log_likelihood null_ll else some p
  | none => pseudo_r2_fallback log_likelihood null_ll

/-! ## Two-stage solver fallback (`app.py` 466-475, CLI 153-161) -/

/-- The two-stage estimation of `app.py` 466-475, abstracted over the
statsmodels solver: `model.fit(method="newton", maxiter=100)` first; when
that raises, `model.fit(method="bfgs", maxiter=200)`; when both raise, a
`ValueError` carrying both messages. -/
def fit_with_fallback {α : Type} (fit : String → Nat → Except String α) :
    Except String α :=
  match fit "newton" 100 with
  | .ok r => .ok r
  | .error e1 =>
    match fit "bfgs" 200 with
    | .ok r => .ok r
    | .error e2 =>
      .error ("Model estimation failed with both methods. Newton: " ++ e1 ++
        ", BFGS: " ++ e2)

/-- The same two-stage policy in `estimate_from_survey_cli.py` 153-161,
differing only in the final message format. -/
def cli_fit_with_fallback {α : Type} (fit : String → Nat → Except String α) :
    Except String α :=
  match fit "newton" 100 with
  | .ok r => .ok r
  | .error e1 =>
    match fit "bfgs" 200 with
    | .ok r => .ok r
    | .error e2 =>
      .error ("Model estimation failed with Newton (" ++ e1 ++ ") and BFGS (" ++
        e2 ++ ").")

end Conjoint

namespace Conjoint

/-! ## Choice simulation engine (`app.py` 300-344, 556-608) -/

/-- A utility table: attribute name → (level name → coefficient), both maps
insertion-ordered as Python dicts are. -/
abbrev Utilities := List (String × List (String × ℝ))

/-- A scenario: attribute name → chosen level name. -/
abbrev Scenario := List (String × String)

/-- `sum(u_map.get(k, 0.0) for k in keys)` at `app.py` 326: the sum of the
coefficient found for each key of the attribute's map. -/
noncomputable def attr_key_sum (m : List (String × ℝ)) : ℝ :=
  ((m.map Prod.fst).map (fun k => ((m.lookup k).getD 0))).sum

/-- The contribution of one `(attr, lvl)` pair of a scenario to its total
utility (`app.py` 317-326): a level with an estimated coefficient adds it;
any other level is the implicit reference and subtracts the sum of the
attribute's estimated coefficients. -/
noncomputable def pair_contribution (utilities : Utilities) (attr lvl : String) : ℝ :=
  let u_map := (utilities.lookup attr).getD []
  match u_map.lookup lvl with
  | some c => c
  | none => -(attr_key_sum u_map)

/-- `scenario_utilities(scenarios, utilities, intercept)` (`app.py` 300-329):
one total utility per scenario, starting from the intercept. -/
noncomputable def scenario_utilities (scenarios : List Scenario) (utilities : Utilities)
    (intercept : ℝ) : List ℝ :=
  scenarios.map (fun s =>
    intercept + (s.map (fun p => pair_contribution utilities p.1 p.2)).sum)

/-- `np.max` raises on an empty array; otherwise it is the ordinary maximum. -/
def np_max (x : List ℝ) : Except String ℝ :=
  match x with
  | [] => .error "zero-size array to reduction operation maximum which has no identity"
  | h :: t => .ok (t.foldl max h)

/-- `np.argmax`: the index of the first occurrence of the maximum.  On an
empty list it returns junk `0`; every call site either guards emptiness or
never evaluates it on an empty list. -/
noncomputable def np_argmax (x : List ℝ) : Nat :=
  match np_max x with
  | .error _ => 0
  | .ok m => ((x.enum.filter (fun p => p.2 = m)).map Prod.fst).headI

/-- `softmax(x)` (`app.py` 331-344): subtract the maximum (raising on an
empty array, as `np.max` does), exponentiate, normalize by the sum. -/
noncomputable def softmax (x : List ℝ) : Except String (List ℝ) := do
  let m ← np_max x
  let ex := x.map (fun v => Real.exp (v - m))
  return ex.map (fun e => e / ex.sum)

/-- A `/simulate` request (`app.py` 65-69). -/
structure SimulateRequest where
  intercept : ℝ
  utilities : Utilities
  scenarios : List Scenario
  rule : String

/-- A `/simulate` response (`app.py` 71-73). -/
structure SimulateResponse where
  utilities : List ℝ
  shares : List ℝ

/-- The validation loop of `simulate` (`app.py` 570-580): for each scenario,
every attribute of the utility table must be present with a non-empty
(stripped) level string; otherwise an HTTP 400 is raised.  The second loop at
lines 582-588 only emits a debug log when a level is not among the estimated
ones and has no effect. -/
def simulate_validate (utilities : Utilities) :
    List Scenario → Except String Unit
  | [] => .ok ()
  | s :: rest =>
    let missing := (utilities.map Prod.fst).filter (fun a =>
      match s.lookup a with
      | none => true
      | some v => pyStrip v = "")
    if missing.isEmpty then simulate_validate utilities rest
    else throw ("Scenario is missing required attributes: " ++
      String.intercalate ", " missing)

/-- `simulate(req)` (`app.py` 556-608): validate scenarios, compute total
utilities, then shares under the requested rule; any exception inside the
computation block is surfaced as `Simulation failed: ...`. -/
noncomputable def simulate (req : SimulateRequest) :
    Except String SimulateResponse := do
  simulate_validate req.utilities req.scenarios
  let body : Except String SimulateResponse := do
    let u := scenario_utilities req.scenarios req.utilities req.intercept
    let shares ←
      if req.rule = "first_choice" then
        pure (u.enum.map (fun p => if p.1 = np_argmax u then (1 : ℝ) else 0))
      else if req.rule = "logit" then
        softmax u
      else
        throw ("Unknown simulation rule: " ++ req.rule ++
          ". Use 'logit' or 'first_choice'.")
    return { utilities := u, shares := shares }
  body.mapError (fun e => "Simulation failed: " ++ e)

/-! ## Market scenario analyzer (`app.py` 217-298, 610-736) -/

/-- `normalize_market_shares` (`app.py` 253-266): divide by the total, or
return all zeros when the total is zero. -/
noncomputable def normalize_market_shares (shares : List ℝ) : List ℝ :=
  let total := shares.sum
  if total = 0 then shares.map (fun _ => (0 : ℝ))
  else shares.map (fun share => share / total)

/-- The market-impact metrics of `calculate_market_impact` (`app.py`
217-251). -/
structure MarketImpact where
  total_market_change : ℝ
  max_increase : ℝ
  max_decrease : ℝ
  original_hhi : ℝ
  projected_hhi : ℝ
  concentration_change : ℝ
  individual_changes : List ℝ

/-- `max(l)` with Python's `if l else 0` guard. -/
noncomputable def maxOrZero (l : List ℝ) : ℝ :=
  match l with
  | [] => 0
  | h :: t => t.foldl max h

/-- `min(l)` with Python's `if l else 0` guard. -/
noncomputable def minOrZero (l : List ℝ) : ℝ :=
  match l with
  | [] => 0
  | h :: t => t.foldl min h

/-- `calculate_market_impact(original_shares, projected_shares)` (`app.py`
217-251): elementwise changes, extremes, and HHI before/after; raises on a
length mismatch. -/
noncomputable def calculate_market_impact (original_shares projected_shares : List ℝ) :
    Except String MarketImpact :=
  if original_shares.length ≠ projected_shares.length then
    .error "Original and projected shares must have same length"
  else
    let changes := (original_shares.zip projected_shares).map (fun p => p.2 - p.1)
    let original_hhi := (original_shares.map (fun s => s ^ 2)).sum
    let projected_hhi := (projected_shares.map (fun s => s ^ 2)).sum
    .ok { total_market_change := changes.sum
          max_increase := maxOrZero changes
          max_decrease := minOrZero changes
          original_hhi := original_hhi
          projected_hhi := projected_hhi
          concentration_change := projected_hhi - original_hhi
          individual_changes := changes }

/-- An existing product before projection (`app.py` 634-640): name, row
number, current share, with the `.get` defaults applied. -/
structure OrigProduct where
  name : String
  rowNumber : Int
  currentShare : ℝ

/-- `project_market_shares_with_new_product` (`app.py` 268-298): append the
entrant's utility, then softmax shares under `"logit"`, winner-takes-all
under `"first_choice"`, error otherwise.  The `original_shares` argument is
unused by the function body. -/
noncomputable def project_market_shares_with_new_product (original_shares : List OrigProduct)
    (new_product_utility : ℝ) (existing_utilities : List ℝ) (rule : String) :
    Except String (List ℝ) :=
  let all_utilities := existing_utilities ++ [new_product_utility]
  if rule = "logit" then
    softmax all_utilities
  else if rule = "first_choice" then
    .ok (all_utilities.enum.map
      (fun p => if p.1 = np_argmax all_utilities then (1 : ℝ) else 0))
  else
    .error ("Unknown choice rule: " ++ rule)

/-- The log-share approximation of existing-product utilities (`app.py`
665-671): `log share` for a positive share, the sentinel `-10` for a zero
share. -/
noncomputable def existing_utilities_of (shares : List ℝ) : List ℝ :=
  shares.map (fun share => if share > 0 then Real.log share else -10)

end Conjoint

namespace Conjoint

/-! ## `/analyze_scenarios` (`app.py` 610-736) -/

/-- One record of `original_market_shares`: a loosely-typed dict whose
`name`, `rowNumber` and `currentShare` keys may be absent (`app.py` 634-640
reads them with `.get` defaults). -/
structure ShareRecord where
  name : Option String
  rowNumber : Option Int
  currentShare : Option ℝ

/-- A `ScenarioAnalysisRequest` (`app.py` 80-85). -/
structure ScenarioAnalysisRequest where
  intercept : ℝ
  utilities : Utilities
  original_market_shares : List ShareRecord
  new_scenarios : List Scenario
  rule : String

/-- A product entry inside a `MarketShareScenario`: the original-product
fields plus `marketShare`, and a `change` key that is present only on
projected products. -/
structure ProductOut where
  name : String
  rowNumber : Int
  currentShare : ℝ
  marketShare : ℝ
  change : Option ℝ

/-- `MarketShareScenario` (`app.py` 75-78). -/
structure MarketShareScenario where
  scenario_name : String
  products : List ProductOut
  total_share : ℝ

/-- The `market_impact` dict of `analyze_scenarios`: the
`calculate_market_impact` metrics plus the first entrant's share and the
`market_expansion` flag (`app.py` 714-719).  `none` models the empty dict
returned when there are no projected scenarios (`app.py` 708). -/
structure MarketImpactFull where
  base : MarketImpact
  new_product_share : ℝ
  market_expansion : Prop

/-- The diagnostics block of a `ScenarioAnalysisResponse` (`app.py`
727-731); `analysis_timestamp` holds the wall-clock time read by
`datetime.now().isoformat()` at response-construction time. -/
structure AnalysisDiagnostics where
  total_scenarios : Nat
  choice_rule : String
  analysis_timestamp : String

/-- `ScenarioAnalysisResponse` (`app.py` 87-91). -/
structure ScenarioAnalysisResponse where
  original_scenario : MarketShareScenario
  projected_scenarios : List MarketShareScenario
  market_impact : Option MarketImpactFull
  diagnostics : AnalysisDiagnostics

/-- Python `l[i]`, raising `IndexError` when out of range. -/
def listGetE {α : Type} (l : List α) (i : Nat) : Except String α :=
  match l[i]? with
  | some v => .ok v
  | none => .error "list index out of range"

/-- Python `l[-1]`, raising `IndexError` on an empty list. -/
def listLastE {α : Type} (l : List α) : Except String α :=
  match l.getLast? with
  | some v => .ok v
  | none => .error "list index out of range"

/-- The body of the per-scenario loop of `analyze_scenarios` (`app.py`
658-705): compute the entrant's utility, approximate existing utilities from
log-shares, project, and assemble the projected `MarketShareScenario`
(existing products with their share deltas, then the `New Product {idx+1}`
entry). -/
noncomputable def projectOne (intercept : ℝ) (utilities : Utilities)
    (rule : String) (original_products : List OrigProduct)
    (original_shares_normalized : List ℝ) (idx : Nat) (s : Scenario) :
    Except String MarketShareScenario := do
  let new_product_utility := (scenario_utilities [s] utilities intercept).headI
  let existing_utilities := existing_utilities_of original_shares_normalized
  let projected_shares ← project_market_shares_with_new_product
    original_products new_product_utility existing_utilities rule
  let projected_products ← original_products.enum.mapM (fun p => do
    let ps ← listGetE projected_shares p.1
    let os ← listGetE original_shares_normalized p.1
    return ({ name := p.2.name, rowNumber := p.2.rowNumber
              currentShare := p.2.currentShare, marketShare := ps
              change := some (ps - os) } : ProductOut))
  let lastShare ← listLastE projected_shares
  let newProduct : ProductOut :=
    { name := "New Product " ++ toString (idx + 1)
      rowNumber := (original_products.length : Int) + (idx : Int) + 1
      currentShare := 0, marketShare := lastShare, change := some lastShare }
  return { scenario_name := "Scenario " ++ toString (idx + 1)
           products := projected_products ++ [newProduct]
           total_share := projected_shares.sum }

/-- The market-impact step of `analyze_scenarios` (`app.py` 707-719):
an empty dict when there are no projected scenarios; otherwise the impact
metrics of the **first** projected scenario (its products without the final
entrant, compared against the normalized original shares) plus the entrant's
share and the expansion flag. -/
noncomputable def computeImpact (original_scenario : MarketShareScenario)
    (projected_scenarios : List MarketShareScenario) :
    Except String (Option MarketImpactFull) :=
  match projected_scenarios with
  | [] => .ok none
  | first_projected :: _ => do
    let original_shares_only := original_scenario.products.map ProductOut.marketShare
    let projected_shares_only := first_projected.products.dropLast.map ProductOut.marketShare
    let base ← calculate_market_impact original_shares_only projected_shares_only
    let lastProduct ← listLastE first_projected.products
    return some { base := base
                  new_product_share := lastProduct.marketShare
                  market_expansion := lastProduct.marketShare > 0 }

/-- The `original_products` local of `analyze_scenarios` (`app.py` 634-639):
the share records with their `.get` defaults applied. -/
def origProducts (req : ScenarioAnalysisRequest) : List OrigProduct :=
  req.original_market_shares.map (fun p =>
    ({ name := p.name.getD "Unknown Product"
       rowNumber := p.rowNumber.getD 0
       currentShare := p.currentShare.getD 0 } : OrigProduct))

/-- The `original_shares_normalized` local (`app.py` 640-643). -/
noncomputable def originalSharesNormalized (req : ScenarioAnalysisRequest) :
    List ℝ :=
  normalize_market_shares (req.original_market_shares.map
    (fun p => p.currentShare.getD 0))

/-- The `original_scenario` local (`app.py` 646-653). -/
noncomputable def originalScenario (req : ScenarioAnalysisRequest) :
    MarketShareScenario :=
  { scenario_name := "Original Market"
    products := ((origProducts req).zip (originalSharesNormalized req)).map (fun p =>
      { name := p.1.name, rowNumber := p.1.rowNumber
        currentShare := p.1.currentShare, marketShare := p.2, change := none })
    total_share := (originalSharesNormalized req).sum }

/-- The time-independent part of `analyze_scenarios` (`app.py` 629-719):
everything inside the endpoint's `try` block up to the response
construction.  The wall-clock timestamp enters only afterwards. -/
noncomputable def analyzeBody (req : ScenarioAnalysisRequest) :
    Except String (MarketShareScenario × List MarketShareScenario ×
      Option MarketImpactFull) := do
  let projected_scenarios ← req.new_scenarios.enum.mapM (fun p =>
    projectOne req.intercept req.utilities req.rule (origProducts req)
      (originalSharesNormalized req) p.1 p.2)
  let market_impact ← computeImpact (originalScenario req) projected_scenarios
  return (originalScenario req, projected_scenarios, market_impact)

/-- `analyze_scenarios(req)` (`app.py` 610-736).  The wall-clock instant read
by `datetime.now().isoformat()` at line 730 is made an explicit parameter
`now`; any exception in the body is surfaced as
`Scenario analysis failed: ...`. -/
noncomputable def analyze_scenarios (req : ScenarioAnalysisRequest)
    (now : String) : Except String ScenarioAnalysisResponse :=
  ((analyzeBody req).map (fun r =>
    { original_scenario := r.1
      projected_scenarios := r.2.1
      market_impact := r.2.2
      diagnostics := { total_scenarios := r.2.1.length
                       choice_rule := req.rule
                       analysis_timestamp := now } })).mapError
    (fun e => "Scenario analysis failed: " ++ e)

end Conjoint

namespace Conjoint

/-! ## Definitions sheet parsing (`app.py` 163-215) -/

/-- `parse_definitions_sheet(df_defs)` (`app.py` 163-215).  The header
`rename` at line 180 maps each lowercased column name to itself and is a
no-op on the column list, so it is not modelled.  Rows with an empty or
`nan` name are skipped; a non-categorical type, a non-string or empty levels
cell, fewer than 2 levels, or a non-empty reference outside the levels each
raise a `ValueError`. -/
def parse_definitions_sheet (df_defs : DataFrame) :
    Except String (List AttrDef) := do
  if "name" ∉ df_defs.cols then
    throw "Definitions must include a 'name' column."
  if "type" ∉ df_defs.cols then
    throw "Definitions must include a 'type' column (must be 'categorical')."
  if "levels" ∉ df_defs.cols then
    throw "Definitions must include a 'levels' column (comma-separated)."
  df_defs.rows.foldlM (fun attributes row => do
    let name := pyStrip (pyStrOpt (rowGet row "name"))
    let typ := pyLower (pyStrip (match rowGet row "type" with
      | none => "categorical"
      | some c => pyStr c))
    let levels_raw := (rowGet row "levels").getD (.str "")
    let reference := rowGet row "reference"
    if name = "" ∨ pyLower name = "nan" then
      pure attributes
    else do
      if typ ≠ "categorical" then
        throw ("Only categorical attributes supported. Offending attribute: '" ++
          name ++ "' (type='" ++ typ ++ "').")
      let levelsStr ← (match levels_raw with
        | .str s => if pyStrip s ≠ "" then pure s else
            throw ("Attribute '" ++ name ++ "' must list levels (comma-separated).")
        | _ => throw ("Attribute '" ++ name ++ "' must list levels (comma-separated)."))
      let levels := (pySplitComma levelsStr).map pyStrip |>.filter (fun s => s ≠ "")
      if levels.length < 2 then
        throw ("Attribute '" ++ name ++ "' must have at least 2 levels.")
      let ref : Option String :=
        if isnaOpt reference then none else some (pyStrip (pyStrOpt reference))
      match ref with
      | some r =>
        if r ≠ "" ∧ r ∉ levels then
          throw ("Attribute '" ++ name ++ "' reference '" ++ r ++
            "' is not in its levels.")
        else
          pure (attributes ++ [{ name := name, levels := levels, reference := ref }])
      | none =>
        pure (attributes ++ [{ name := name, levels := levels, reference := ref }]))
    []

/-! ## `/estimate_from_two_sheets` (`app.py` 365-554) -/

/-- A Python local-name read: yields the bound value, or raises
`NameError: name '...' is not defined` when no binding exists.  Used to model
the read of the never-bound name `attributes_schema` in
`estimate_from_two_sheets` (`app.py` line 459: the definitions parsed at line
433 are bound to the local `attributes`, and no `attributes_schema` exists in
the function or at module scope). -/
def pyLookupName {α : Type} (env : List (String × α)) (x : String) :
    Except String α :=
  match env.lookup x with
  | some v => .ok v
  | none => .error ("name '" ++ x ++ "' is not defined")

/-- The statsmodels fit result at the granularity the endpoint reads:
coefficients by design-matrix column name, the log-likelihood family of
diagnostics, and the convergence metadata. -/
structure FitOutcome where
  params : List (String × ℚ)
  llf : Option PyFloat
  llnull : Option PyFloat
  prsquared : Option PyFloat
  aic : Option PyFloat
  bic : Option PyFloat
  converged : Bool
  iterations : Nat
  method : Option String

/-- `k.split("__", 1)` guarded by `"__" in k` (`app.py` 492-493). -/
def split_on_dunder (k : String) : Option (String × String) :=
  (splitFirstDunder k.toList).map (fun p => (String.mk p.1, String.mk p.2))

/-- Ordered-dict assignment `m[k] = v`: replace an existing key in place or
append. -/
def setOrAppend (m : List (String × ℚ)) (k : String) (v : ℚ) :
    List (String × ℚ) :=
  match m with
  | [] => [(k, v)]
  | (k', v') :: t => if k' = k then (k', v) :: t else (k', v') :: setOrAppend t k v

/-- `by_attr.setdefault(attr, {})[lvl] = v` (`app.py` 494). -/
def insertGrouped (acc : List (String × List (String × ℚ)))
    (attr lvl : String) (v : ℚ) : List (String × List (String × ℚ)) :=
  match acc with
  | [] => [(attr, [(lvl, v)])]
  | (a, m) :: t =>
    if a = attr then (a, setOrAppend m lvl v) :: t
    else (a, m) :: insertGrouped t attr lvl v

/-- The coefficient regrouping of `app.py` 488-494: skip `const`, split every
column name containing `__` into attribute and level. -/
def group_utilities (util : List (String × ℚ)) :
    List (String × List (String × ℚ)) :=
  util.foldl (fun acc p =>
    if p.1 = "const" then acc
    else match split_on_dunder p.1 with
      | some al => insertGrouped acc al.1 al.2 p.2
      | none => acc) []

/-- The estimation diagnostics block (`app.py` 509-527); `pseudo_r2 = none`
models the key being absent from the dict. -/
structure EstDiagnostics where
  converged : Bool
  iterations : Nat
  method : Option String
  n_observations : Nat
  n_parameters : Nat
  log_likelihood : PyFloat
  null_log_likelihood : Option PyFloat
  aic : Option PyFloat
  bic : Option PyFloat
  pseudo_r2 : Option PyFloat

/-- The successful payload of `/estimate_from_two_sheets` (`app.py`
548-554). -/
structure EstimateOut where
  intercept : ℚ
  utilities : List (String × List (String × ℚ))
  columns : List String
  schemaAttrs : List AttrDef
  diagnostics : EstDiagnostics

/-- The message of the numerical-issues guard (`app.py` 502-506). -/
def numericalIssuesMsg : String :=
  "Model estimation failed due to numerical issues (NaN/Inf). " ++
  "This usually happens when attributes have too many levels (>20). " ++
  "Consider recoding your attributes into fewer categories."

/-- The `try` block of `estimate_from_two_sheets` (`app.py` 446-529): drop
rows with a missing choice, require at least one remaining row, convert the
choice column to integers, then read the local name `attributes_schema`
(line 459) — which was never bound (the parsed definitions live in
`attributes`), so a `NameError` is raised here on every call — and continue
with the design matrix, the two-stage fit, the regrouping and the
diagnostics. -/
def two_sheets_body (dfData : DataFrame) (attributes : List AttrDef)
    (chosen_col : String)
    (fitOracle : DesignMatrix → List Int → String → Nat → Except String FitOutcome) :
    Except String EstimateOut := do
  let df : DataFrame :=
    { dfData with rows := dfData.rows.filter (fun r => !(isnaOpt (rowGet r chosen_col))) }
  if df.rows.length = 0 then
    throw "No valid choice data found after removing missing values"
  let y ← df.rows.mapM (fun r => pyInt ((rowGet r chosen_col).getD .blank))
  let attributes_schema ← pyLookupName [("attributes", attributes)] "attributes_schema"
  let X ← build_design_matrix df attributes_schema
  let res ← fit_with_fallback (fun method maxiter => fitOracle X y method maxiter)
  let util := res.params
  let by_attr := group_utilities util
  let log_likelihood ← (match res.llf with
    | none => throw numericalIssuesMsg
    | some l => if l.isnan ∨ l.isinf then throw numericalIssuesMsg else pure l)
  let diagnostics : EstDiagnostics :=
    { converged := res.converged, iterations := res.iterations
      method := res.method
      n_observations := X.rows.length, n_parameters := X.cols.length
      log_likelihood := log_likelihood, null_log_likelihood := res.llnull
      aic := res.aic, bic := res.bic
      pseudo_r2 := pseudo_r2_entry res.prsquared log_likelihood res.llnull }
  return { intercept := (util.lookup "const").getD 0
           utilities := by_attr
           columns := X.cols
           schemaAttrs := attributes_schema
           diagnostics := diagnostics }

/-- `estimate_from_two_sheets` after the transport-layer steps (`app.py`
365-554): parse the definitions sheet, check the four required data columns,
then run the estimation body, wrapping its exceptions as
`Estimation failed: ...`. -/
def estimate_from_two_sheets_core (dfData dfDefs : DataFrame)
    (resp_col task_col alt_col chosen_col : String)
    (fitOracle : DesignMatrix → List Int → String → Nat → Except String FitOutcome) :
    Except String EstimateOut := do
  let attributes ← (parse_definitions_sheet dfDefs).mapError
    (fun e => "Definitions error: " ++ e)
  [resp_col, task_col, alt_col, chosen_col].forM (fun col =>
    if col ∈ dfData.cols then pure ()
    else throw ("Missing required column in data: " ++ col))
  (two_sheets_body dfData attributes chosen_col fitOracle).mapError
    (fun e => "Estimation failed: " ++ e)

end Conjoint

namespace Conjoint

/-! ## Wide-survey export parser (`app.py` 847-1165) -/

/-- `^QC1_\d+$` (`app.py` 923): the task number of a choice column. -/
def parseQC1 (c : String) : Option Nat :=
  if pyStartsWith c "QC1_" then digitsToNat (c.drop 4).toList else none

/-- The `[A-Z0-9_]` brand character class of the attribute-column patterns. -/
def isBrandChar (ch : Char) : Bool :=
  (65 ≤ ch.toNat ∧ ch.toNat ≤ 90) ∨ (48 ≤ ch.toNat ∧ ch.toNat ≤ 57) ∨ ch.toNat = 95

/-- The `(\d+)c(\d+)$` tail of the attribute-column patterns: a greedy digit
run, the literal `c`, then digits to the end. -/
def parseTaskSlot (cs : List Char) : Option (Nat × Nat) :=
  let ds := cs.takeWhile Char.isDigit
  match cs.dropWhile Char.isDigit with
  | c :: rest2 =>
    if c.toNat = 99 then
      match digitsToNat ds, digitsToNat rest2 with
      | some t, some s => some (t, s)
      | _, _ => none
    else none
  | [] => none

/-- One candidate split of `^([A-Z0-9_]+?)_(\d+)c(\d+)$` at position `i`. -/
def splitBrandAt (cs : List Char) (i : Nat) : Option (String × Nat × Nat) :=
  let pre := cs.take i
  match cs.drop i with
  | c :: suf =>
    if c.toNat = 95 ∧ pre ≠ [] ∧ pre.all isBrandChar then
      (parseTaskSlot suf).map (fun ts => (String.mk pre, ts))
    else none
  | [] => none

/-- `^hATTR_([A-Z0-9_]+?)_(\d+)c(\d+)$` (`app.py` 930): the non-greedy brand
group takes the first split position at which the rest of the pattern
matches. -/
def parseAttrValueCol (c : String) : Option (String × Nat × Nat) :=
  if pyStartsWith c "hATTR_" then
    let cs := (c.drop 6).toList
    ((List.range cs.length).filterMap (fun i => splitBrandAt cs i)).head?
  else none

/-- One candidate split of `^([A-Z0-9_]+?)_H_(\d+)c(\d+)$` at position `i`. -/
def splitBrandHeaderAt (cs : List Char) (i : Nat) : Option (String × Nat × Nat) :=
  let pre := cs.take i
  match cs.drop i with
  | c1 :: c2 :: c3 :: suf =>
    if c1.toNat = 95 ∧ c2.toNat = 72 ∧ c3.toNat = 95 ∧ pre ≠ [] ∧
        pre.all isBrandChar then
      (parseTaskSlot suf).map (fun ts => (String.mk pre, ts))
    else none
  | _ => none

/-- `^hATTR_([A-Z0-9_]+?)_H_(\d+)c(\d+)$` (`app.py` 931). -/
def parseAttrHeaderCol (c : String) : Option (String × Nat × Nat) :=
  if pyStartsWith c "hATTR_" then
    let cs := (c.drop 6).toList
    ((List.range cs.length).filterMap (fun i => splitBrandHeaderAt cs i)).head?
  else none

/-- Insertion-ordered dict update: replace the value at `k` in place, or
append a fresh binding — the semantics of Python's `dict.setdefault` plus
mutation. -/
def odAlter {κ β : Type} [DecidableEq κ] (d : List (κ × β)) (k : κ)
    (f : Option β → β) : List (κ × β) :=
  match d with
  | [] => [(k, f none)]
  | (k', v) :: t => if k' = k then (k', f (some v)) :: t else (k', v) :: odAlter t k f

/-- Insertion-ordered dict assignment `d[k] = v`. -/
def odAssign {κ β : Type} [DecidableEq κ] (d : List (κ × β)) (k : κ) (v : β) :
    List (κ × β) :=
  odAlter d k (fun _ => v)

/-- The header/value column pair recorded for one (brand, task, slot). -/
structure SlotCols where
  header : Option String
  value : Option String
deriving DecidableEq, Repr

/-- `brand_columns`: brand → task → slot → columns, all insertion-ordered. -/
abbrev BrandColumns := List (String × List (Nat × List (Nat × SlotCols)))

/-- Deep `setdefault` chain of `app.py` 941-943 / 954-956. -/
def updateSlot (bc : BrandColumns) (brand : String) (task slot : Nat)
    (g : SlotCols → SlotCols) : BrandColumns :=
  odAlter bc brand (fun tm =>
    odAlter (tm.getD []) task (fun sm =>
      odAlter (sm.getD []) slot (fun sc => g (sc.getD ⟨none, none⟩))))

/-- The column-classification pass of `app.py` 934-956: header columns are
matched first; a value-pattern match whose uppercased brand ends in `_H` is
skipped. -/
def classify_columns (cols : List String) : BrandColumns :=
  cols.foldl (fun bc col =>
    match parseAttrHeaderCol col with
    | some p =>
      updateSlot bc (pyUpper p.1) p.2.1 p.2.2 (fun sc => { sc with header := some col })
    | none =>
      match parseAttrValueCol col with
      | some p =>
        let brand := pyUpper p.1
        if pyEndsWith brand "_H" then bc
        else updateSlot bc brand p.2.1 p.2.2 (fun sc => { sc with value := some col })
      | none => bc) []

/-- The pruning pass of `app.py` 958-968: drop slots without a value column,
then empty tasks, then empty brands, preserving insertion order. -/
def cleanup_brand_columns (bc : BrandColumns) : BrandColumns :=
  (bc.map (fun p => (p.1,
    (p.2.map (fun q => (q.1, q.2.filter (fun r => r.2.value.isSome)))).filter
      (fun q => !q.2.isEmpty)))).filter (fun p => !p.2.isEmpty)

/-- `normalize_code(value)` (`app.py` 866-871): an integral numeric renders
as the integer, a non-integral numeric as its float repr (approximated by
`toString`; no claim depends on it), anything else as its stripped string
form. -/
def normalize_code (v : Cell) : String :=
  match v with
  | .num q => if q.den = 1 then toString q.num else pyStr (.num q)
  | .str s => pyStrip s
  | .blank => "nan"

/-- One resolved `design_lookup` entry (`app.py` 908-914). -/
structure DesignEntry where
  label : String
  reference : Option String
  code_map : List (String × String)
  level_names : List String
  schema_name : String
deriving DecidableEq, Repr

/-- One long-format observation (`app.py` 1016-1021): the four id columns
plus the per-attribute level names collected from the slots. -/
structure LongRow where
  resp_id : Nat
  task_id : Nat
  alt_id : Nat
  chosen : Nat
  attrs : List (String × String)
deriving DecidableEq, Repr

/-- The `design_entry` resolution of `app.py` 1049-1053: prefer the
attribute-number lookup, then the brand lookup. -/
def resolve_design_entry (designByNo designByBrand : List (String × DesignEntry))
    (brand : String) : Option String → Option DesignEntry
  | some a =>
    match designByNo.lookup a with
    | some e => some e
    | none => designByBrand.lookup brand
  | none => designByBrand.lookup brand

/-- The per-slot body of the alternative loop (`app.py` 1025-1069), acting on
the state (current `alt_data` attribute dict, `attributes_seen`,
`attribute_values_found`).  With both design lookups empty — the
`attributes`-omitted call — `design_entry` is always `None` and the slot
contributes nothing. -/
def process_slot (designByNo designByBrand : List (String × DesignEntry))
    (brand : String) (row : Row) (sc : SlotCols)
    (st : List (String × String) × List String × Bool) :
    List (String × String) × List String × Bool :=
  match sc.value with
  | none => st
  | some value_col =>
    let raw_value := rowGetD row value_col
    if isna raw_value ∨ raw_value = .str "" then st
    else
      let headerNo : Option String :=
        match sc.header with
        | some header_col =>
          let header_value := rowGetD row header_col
          if isna header_value then none
          else
            let header_str := pyStrip (pyStr header_value)
            if header_str ≠ "" then some header_str else none
        | none => none
      let attr_no : Option String :=
        match headerNo with
        | some a => some a
        | none =>
          let normalized := normalize_code raw_value
          if normalized.length > 1 then some (normalized.dropRight 1) else none
      match resolve_design_entry designByNo designByBrand brand attr_no with
      | none => st
      | some entry =>
        let level_code := normalize_code raw_value
        let level_name :=
          match entry.code_map.lookup level_code with
          | some n => if n = "" then level_code else n
          | none => level_code
        let schema_name :=
          if entry.schema_name ≠ "" then entry.schema_name
          else if entry.label ≠ "" then entry.label
          else match attr_no with
            | some a => if a ≠ "" then a else brand
            | none => brand
        let seen := if schema_name ∈ st.2.1 then st.2.1 else st.2.1 ++ [schema_name]
        (odAssign st.1 schema_name level_name, seen, true)

/-- Ascending insertion into a sorted list of naturals. -/
def insertSortedNat (n : Nat) : List Nat → List Nat
  | [] => [n]
  | m :: t => if n ≤ m then n :: m :: t else m :: insertSortedNat n t

/-- `sorted(keys)` over naturals. -/
def sortNats (l : List Nat) : List Nat := l.foldr insertSortedNat []

/-- Ascending insertion into a sorted list of strings. -/
def insertSortedStr (s : String) : List String → List String
  | [] => [s]
  | t :: r => if s < t ∨ s = t then s :: t :: r else t :: insertSortedStr s r

/-- `sorted(strings)` (code-point lexicographic, as in Python). -/
def sortStrs (l : List String) : List String := l.foldr insertSortedStr []

/-- Mutable tallies and accumulators of the conversion loop (`app.py`
977-982). -/
structure ConvState where
  long : List LongRow
  seen : List String
  skipped_tasks : Nat
  skipped_missing_alts : Nat
  skipped_choice : Nat
  include_none : Bool
deriving DecidableEq, Repr

/-- One (respondent, task) iteration of the conversion loop (`app.py`
987-1094): read and validate the choice index, set the sticky none-option
flag when it exceeds the real alternative count, assemble one row per brand
that has slots for this task (appended whenever slots exist, since
`has_slots` is true in that branch), optionally append the synthesized
`none` alternative, then either tally a skip (fewer than two rows, or a
chosen index beyond the assembled rows) or emit the rows. -/
def process_task (designByNo designByBrand : List (String × DesignEntry))
    (bc : BrandColumns) (brand_order : List String) (n_alts : Nat)
    (cols : List String) (row : Row) (resp_id task_num : Nat)
    (st : ConvState) : ConvState :=
  let choice_col := "QC1_" ++ toString task_num
  if choice_col ∉ cols then st
  else
    let chosen_alt_raw := (rowGet row choice_col).getD .blank
    if isna chosen_alt_raw then st
    else
      match pyInt chosen_alt_raw with
      | .error _ => { st with skipped_tasks := st.skipped_tasks + 1 }
      | .ok chosen_alt =>
        if chosen_alt < 1 then { st with skipped_tasks := st.skipped_tasks + 1 }
        else
          let st :=
            if chosen_alt > (n_alts : Int) then { st with include_none := true } else st
          let folded := brand_order.enum.foldl
            (fun (acc : List LongRow × List String) p =>
              let alt_index := p.1 + 1
              let task_slots := (((bc.lookup p.2).getD []).lookup task_num).getD []
              if task_slots.isEmpty then acc
              else
                let slotRes := (sortNats (task_slots.map Prod.fst)).foldl
                  (fun a k =>
                    match task_slots.lookup k with
                    | some sc => process_slot designByNo designByBrand p.2 row sc a
                    | none => a)
                  ([], acc.2, false)
                let alt_data : LongRow :=
                  { resp_id := resp_id, task_id := task_num, alt_id := alt_index
                    chosen := if (alt_index : Int) = chosen_alt then 1 else 0
                    attrs := slotRes.1 }
                (acc.1 ++ [alt_data], slotRes.2.1))
            ([], st.seen)
          let alt_rows :=
            if st.include_none then
              folded.1 ++ [{ resp_id := resp_id, task_id := task_num
                             alt_id := n_alts + 1
                             chosen := if chosen_alt = (n_alts : Int) + 1 then 1 else 0
                             attrs := [] }]
            else folded.1
          let st := { st with seen := folded.2 }
          if alt_rows.length < 2 then
            { st with skipped_missing_alts := st.skipped_missing_alts + 1
                      skipped_tasks := st.skipped_tasks + 1 }
          else if chosen_alt > (alt_rows.length : Int) then
            { st with skipped_choice := st.skipped_choice + 1
                      skipped_tasks := st.skipped_tasks + 1 }
          else
            { st with long := st.long ++ alt_rows }

/-- An attribute-schema entry inferred from the observed data (`app.py`
1149-1163). -/
structure InferredAttr where
  name : String
  levels : List String
  reference : Option String
  label : String
deriving DecidableEq, Repr

/-- The result of the conversion: the long table, the inferred schema, and
the logged skip tallies of `app.py` 1096-1103. -/
structure ParseResult where
  long : List LongRow
  schema : List InferredAttr
  skipped_tasks : Nat
  skipped_missing_alts : Nat
  skipped_choice : Nat
deriving DecidableEq, Repr

/-- `parse_survey_export_to_long(df, attributes_from_design=None)` (`app.py`
847-1165), specialized to the call without design attributes: both design
lookups are empty (`app.py` 873-874 initialize them to `\x7b\x7d` and the
population loop at 875-921 is skipped), and the attribute schema is inferred
from the observed level values (`app.py` 1148-1163). -/
def parse_survey_export_to_long_noDesign (df : DataFrame) :
    Except String ParseResult := do
  let choice_cols := df.cols.filter (fun c => (parseQC1 c).isSome)
  let n_tasks := choice_cols.length
  if n_tasks = 0 then
    throw "No choice columns found (expected QC1_1, QC1_2, etc.)"
  let bc := cleanup_brand_columns (classify_columns df.cols)
  let brand_order := bc.map Prod.fst
  let n_alts := brand_order.length
  if n_alts = 0 then
    throw "No attribute columns found (expected hATTR_\x7bBRAND\x7d_\x7bTASK\x7dc\x7bSLOT\x7d pattern)"
  let final := df.rows.enum.foldl (fun st p =>
    (List.range' 1 n_tasks).foldl (fun st2 task_num =>
      process_task [] [] bc brand_order n_alts df.cols p.2 (p.1 + 1) task_num st2) st)
    ⟨[], [], 0, 0, 0, false⟩
  if final.long.isEmpty then
    throw "No valid choice data could be constructed from the survey export"
  let schema := (sortStrs final.seen).map (fun schema_name =>
    let vals := final.long.filterMap (fun r => r.attrs.lookup schema_name)
    let seen_levels := vals.foldl (fun acc v => if v ∈ acc then acc else acc ++ [v]) []
    ({ name := schema_name, levels := seen_levels, reference := none
       label := schema_name } : InferredAttr))
  return { long := final.long, schema := schema
           skipped_tasks := final.skipped_tasks
           skipped_missing_alts := final.skipped_missing_alts
           skipped_choice := final.skipped_choice }

end Conjoint

/-! ## Claim C3: the effects-coding row invariant -/

namespace Conjoint

/-- A list is a one-hot vector: a single `1` surrounded by zeros. -/
def IsOneHot (row : List ℚ) : Prop :=
  ∃ n₁ n₂, row = List.replicate n₁ (0 : ℚ) ++ (1 : ℚ) :: List.replicate n₂ (0 : ℚ)

lemma effect_code_row_ref (levels : List String) (ref : String) (v : String)
    (hv : (if v ∈ levels then v else ref) = ref) :
    effect_code_row levels ref v =
      List.replicate (levels.filter (fun l => l ≠ ref)).length (-1 : ℚ) := by
  unfold effect_code_row
  simp only [hv, if_pos rfl]
  simp [List.map_const]

lemma map_indicator_eq_onehot (cats : List String) (v : String)
    (hnd : cats.Nodup) (hmem : v ∈ cats) :
    ∃ n₁ n₂, cats.map (fun c => if v = c then (1 : ℚ) else 0) =
      List.replicate n₁ (0 : ℚ) ++ (1 : ℚ) :: List.replicate n₂ (0 : ℚ) := by
  induction cats with
  | nil => simp at hmem
  | cons c t ih =>
    rcases List.mem_cons.mp hmem with h | h
    · subst h
      refine ⟨0, t.length, ?_⟩
      have hvt : v ∉ t := (List.nodup_cons.mp hnd).1
      simp only [List.map_cons, if_pos rfl, List.replicate, List.nil_append]
      congr 1
      have : ∀ x ∈ t, (if v = x then (1 : ℚ) else 0) = 0 := by
        intro x hx
        have : v ≠ x := fun he => hvt (he ▸ hx)
        simp [this]
      calc t.map (fun c => if v = c then (1 : ℚ) else 0)
          = t.map (fun _ => (0 : ℚ)) := List.map_congr_left this
        _ = List.replicate t.length (0 : ℚ) := by simp [List.map_const]
    · have hnd' : t.Nodup := (List.nodup_cons.mp hnd).2
      obtain ⟨n₁, n₂, hrec⟩ := ih hnd' h
      have hvc : v ≠ c := by
        intro he
        exact (List.nodup_cons.mp hnd).1 (he ▸ h)
      refine ⟨n₁ + 1, n₂, ?_⟩
      simp only [List.map_cons, if_neg hvc]
      rw [hrec]
      simp [List.replicate_succ]

/-- **C3.** For every input column and every attribute definition with at
least 2 distinct levels whose resolved reference (the explicit one, or the
last level by default) lies in the levels, every row of the effects-coded
block produced by `effect_code` is either a one-hot indicator over the
non-reference levels or all `-1`; and a row whose observed value is outside
the level list is coerced to the reference, hence becomes all `-1`.  The
block's rows are exactly `effect_code_row` applied to the series values. -/
theorem C3_effect_code_row_invariant (series : List String) (name : String)
    (levels : List String) (reference : Option String)
    (hnd : levels.Nodup) (hlen : 2 ≤ levels.length)
    (href : resolveReference levels reference ∈ levels) :
    (effect_code series name levels reference).rows =
        series.map (effect_code_row levels (resolveReference levels reference))
    ∧ ∀ v ∈ series,
        (effect_code_row levels (resolveReference levels reference) v =
            List.replicate ((levels.filter
              (fun l => l ≠ resolveReference levels reference)).length) (-1 : ℚ)
          ∨ IsOneHot (effect_code_row levels (resolveReference levels reference) v))
        ∧ (v ∉ levels →
            effect_code_row levels (resolveReference levels reference) v =
              List.replicate ((levels.filter
                (fun l => l ≠ resolveReference levels reference)).length) (-1 : ℚ)) := by
  set ref := resolveReference levels reference with href_def
  constructor
  · rfl
  · intro v _
    constructor
    · by_cases hcase : (if v ∈ levels then v else ref) = ref
      · exact Or.inl (effect_code_row_ref levels ref v hcase)
      · right
        have hvmem : v ∈ levels := by
          by_contra hc
          exact hcase (by simp [hc])
        have hveq : (if v ∈ levels then v else ref) = v := by simp [hvmem]
        have hvne : v ≠ ref := by rw [hveq] at hcase; exact hcase
        have hvcats : v ∈ levels.filter (fun l => l ≠ ref) := by
          rw [List.mem_filter]
          exact ⟨hvmem, by simp [hvne]⟩
        have hcnd : (levels.filter (fun l => l ≠ ref)).Nodup := hnd.filter _
        obtain ⟨n₁, n₂, hoh⟩ := map_indicator_eq_onehot _ v hcnd hvcats
        refine ⟨n₁, n₂, ?_⟩
        unfold effect_code_row
        simp only [hveq]
        rw [if_neg hvne]
        simpa [hveq] using hoh
    · intro hout
      apply effect_code_row_ref
      simp [hout]

/-- Concrete check of C3 at an attribute Price with levels Low, Med, High,
default reference High, over a series containing each level and an
out-of-vocabulary value. -/
theorem C3_witness :
    (["Low", "Med", "High"] : List String).Nodup ∧
      2 ≤ (["Low", "Med", "High"] : List String).length ∧
      resolveReference ["Low", "Med", "High"] none ∈ (["Low", "Med", "High"] : List String) ∧
      ((effect_code ["Low", "Med", "High", "???"] "Price" ["Low", "Med", "High"] none).rows =
          ["Low", "Med", "High", "???"].map
            (effect_code_row ["Low", "Med", "High"]
              (resolveReference ["Low", "Med", "High"] none))
        ∧ ∀ v ∈ (["Low", "Med", "High", "???"] : List String),
          (effect_code_row ["Low", "Med", "High"]
              (resolveReference ["Low", "Med", "High"] none) v =
              List.replicate ((["Low", "Med", "High"].filter
                (fun l => l ≠ resolveReference ["Low", "Med", "High"] none)).length) (-1 : ℚ)
            ∨ IsOneHot (effect_code_row ["Low", "Med", "High"]
              (resolveReference ["Low", "Med", "High"] none) v))
          ∧ (v ∉ (["Low", "Med", "High"] : List String) →
              effect_code_row ["Low", "Med", "High"]
                (resolveReference ["Low", "Med", "High"] none) v =
                List.replicate ((["Low", "Med", "High"].filter
                  (fun l => l ≠ resolveReference ["Low", "Med", "High"] none)).length)
                  (-1 : ℚ))) := by
  refine ⟨by decide, by decide, by decide, ?_⟩
  exact C3_effect_code_row_invariant ["Low", "Med", "High", "???"] "Price"
    ["Low", "Med", "High"] none (by decide) (by decide) (by decide)

end Conjoint

/-! ## Claim C5: the two-stage solver fallback -/

namespace Conjoint

/-- **C5.** For every estimation call, the estimator first attempts the
Newton-type solver with iteration bound 100 and returns its result when it
succeeds; it falls back to the quasi-Newton BFGS solver with the larger
bound 200 only when the first attempt raises; when both raise, the whole
call fails with a single error carrying both underlying messages, and no
result is returned.  The final conjunct shows the procedure consults the
solver only at `("newton", 100)` and `("bfgs", 200)`.  Both the endpoint's
variant (`app.py` 466-475) and the CLI's `_fit_mnlogit` variant
(`estimate_from_survey_cli.py` 153-161) are covered. -/
theorem C5_two_stage_solver_fallback {α : Type}
    (fit : String → Nat → Except String α) :
    (∀ r, fit "newton" 100 = .ok r →
      fit_with_fallback fit = .ok r ∧ cli_fit_with_fallback fit = .ok r)
    ∧ (∀ e1 r, fit "newton" 100 = .error e1 → fit "bfgs" 200 = .ok r →
      fit_with_fallback fit = .ok r ∧ cli_fit_with_fallback fit = .ok r)
    ∧ (∀ e1 e2, fit "newton" 100 = .error e1 → fit "bfgs" 200 = .error e2 →
      fit_with_fallback fit =
          .error ("Model estimation failed with both methods. Newton: " ++ e1 ++
            ", BFGS: " ++ e2)
        ∧ cli_fit_with_fallback fit =
          .error ("Model estimation failed with Newton (" ++ e1 ++ ") and BFGS (" ++
            e2 ++ ")."))
    ∧ (∀ g : String → Nat → Except String α,
      fit "newton" 100 = g "newton" 100 → fit "bfgs" 200 = g "bfgs" 200 →
      fit_with_fallback fit = fit_with_fallback g
        ∧ cli_fit_with_fallback fit = cli_fit_with_fallback g) := by
  refine ⟨?_, ?_, ?_, ?_⟩
  · intro r h
    constructor <;> simp only [fit_with_fallback, cli_fit_with_fallback, h]
  · intro e1 r h1 h2
    constructor <;> simp only [fit_with_fallback, cli_fit_with_fallback, h1, h2]
  · intro e1 e2 h1 h2
    constructor <;> simp only [fit_with_fallback, cli_fit_with_fallback, h1, h2]
  · intro g h1 h2
    constructor <;> simp only [fit_with_fallback, cli_fit_with_fallback, h1, h2]

/-- Concrete check of C5: a solver that diverges under both methods yields
the combined failure message and no result. -/
theorem C5_witness :
    ((fun _ _ => (.error "diverged" : Except String Nat)) : String → Nat →
        Except String Nat) "newton" 100 = .error "diverged"
    ∧ fit_with_fallback (fun _ _ => (.error "diverged" : Except String Nat)) =
        .error "Model estimation failed with both methods. Newton: diverged, BFGS: diverged"
    ∧ cli_fit_with_fallback (fun _ _ => (.error "diverged" : Except String Nat)) =
        .error "Model estimation failed with Newton (diverged) and BFGS (diverged)." := by
  have h := (C5_two_stage_solver_fallback
    (fun _ _ => (.error "diverged" : Except String Nat))).2.2.1 "diverged" "diverged"
    rfl rfl
  exact ⟨rfl, h.1, h.2⟩

end Conjoint

/-! ## Claim C8: the pseudo-R² diagnostics entry -/

namespace Conjoint

/-- **C8 counterexample.** The claim states that `pseudo_r2` is omitted when
the null log-likelihood is infinite; but at `prsquared` absent, a finite
log-likelihood `-50` and `llnull = +inf`, the code's membership-and-NaN test
passes and the entry `1 - (-50)/inf = 1` is produced, not omitted. -/
theorem C8_counterexample :
    pseudo_r2_entry none (.num (-50)) (some (.inf true)) = some (.num 1) := by
  simp [pseudo_r2_entry, pseudo_r2_fallback, PyFloat.div, PyFloat.sub, PyFloat.isnan]

/-- **C8 (amended).** For every successful fit (finite log-likelihood, as
guaranteed by the numerical-issues guard) in which the solver supplies no
usable pseudo-R² (`prsquared` absent or `NaN`), the diagnostics contain
`pseudo_r2 = 1 - logLik/nullLogLik` exactly when the null log-likelihood is
a nonzero finite value; the entry is omitted exactly when the null
log-likelihood is absent, zero, or `NaN`; and an infinite null
log-likelihood yields the entry with value `1` rather than omission. -/
theorem C8_pseudo_r2_entry_amended (pr2 : Option PyFloat) (q : ℚ)
    (nll : Option PyFloat) (hunusable : pr2 = none ∨ pr2 = some .nan) :
    (∀ b : ℚ, b ≠ 0 → nll = some (.num b) →
      pseudo_r2_entry pr2 (.num q) nll = some (.num (1 - q / b)))
    ∧ (pseudo_r2_entry pr2 (.num q) nll = none ↔
      nll = none ∨ nll = some (.num 0) ∨ nll = some .nan)
    ∧ (∀ s, nll = some (.inf s) → pseudo_r2_entry pr2 (.num q) nll = some (.num 1)) := by
  have hred : pseudo_r2_entry pr2 (.num q) nll = pseudo_r2_fallback (.num q) nll := by
    rcases hunusable with h | h <;> subst h <;> rfl
  refine ⟨?_, ?_, ?_⟩
  · intro b hb hnll
    subst hnll
    rw [hred]
    simp [pseudo_r2_fallback, PyFloat.div, PyFloat.sub, PyFloat.isnan, hb]
  · rw [hred]
    match nll with
    | none => simp [pseudo_r2_fallback]
    | some (.num b) =>
      by_cases hb : b = 0
      · subst hb
        simp [pseudo_r2_fallback, PyFloat.isnan]
      · simp [pseudo_r2_fallback, PyFloat.isnan, hb]
    | some (.inf s) => simp [pseudo_r2_fallback, PyFloat.isnan, PyFloat.div, PyFloat.sub]
    | some .nan => simp [pseudo_r2_fallback, PyFloat.isnan]
  · intro s hnll
    subst hnll
    rw [hred]
    simp [pseudo_r2_fallback, PyFloat.isnan, PyFloat.div, PyFloat.sub]

/-- Concrete check of C8 (amended): no solver pseudo-R², log-likelihood `-2`,
null log-likelihood `-4` gives the derived entry `1 - (-2)/(-4) = 1/2`. -/
theorem C8_witness :
    ((none : Option PyFloat) = none ∨ (none : Option PyFloat) = some .nan)
    ∧ (-4 : ℚ) ≠ 0
    ∧ pseudo_r2_entry none (.num (-2)) (some (.num (-4))) =
        some (.num (1 - (-2) / (-4))) := by
  refine ⟨Or.inl rfl, by norm_num, ?_⟩
  exact (C8_pseudo_r2_entry_amended none (-2) (some (.num (-4)))
    (Or.inl rfl)).1 (-4) (by norm_num) rfl

end Conjoint

/-! ## Claim C4: reference-level reconstruction sums to zero -/

namespace Conjoint

lemma lookup_of_mem_keys {β : Type} (m : List (String × β)) (k : String)
    (h : k ∈ m.map Prod.fst) : ∃ c, m.lookup k = some c := by
  induction m with
  | nil => simp at h
  | cons p t ih =>
    obtain ⟨a, b⟩ := p
    rcases List.mem_cons.mp h with h1 | h1
    · subst h1
      exact ⟨b, by simp [List.lookup]⟩
    · rcases ih h1 with ⟨c, hc⟩
      by_cases hk : a = k
      · subst hk
        exact ⟨b, by simp [List.lookup]⟩
      · have hba : (k == a) = false := beq_eq_false_iff_ne.mpr (Ne.symm hk)
        exact ⟨c, by simp [List.lookup, hba, hc]⟩

lemma attr_key_sum_eq_sum_values (m : List (String × ℝ))
    (hnd : (m.map Prod.fst).Nodup) :
    attr_key_sum m = (m.map Prod.snd).sum := by
  induction m with
  | nil => simp [attr_key_sum]
  | cons p t ih =>
    obtain ⟨a, b⟩ := p
    have hnd' : (t.map Prod.fst).Nodup := (List.nodup_cons.mp (by simpa using hnd)).2
    have hnot : a ∉ t.map Prod.fst := (List.nodup_cons.mp (by simpa using hnd)).1
    unfold attr_key_sum
    simp only [List.map_cons, List.sum_cons]
    have h1 : ((((a, b) :: t).lookup a).getD 0) = b := by simp [List.lookup]
    have h2 : (t.map Prod.fst).map (fun k => ((((a, b) :: t).lookup k).getD 0))
        = (t.map Prod.fst).map (fun k => ((t.lookup k).getD 0)) := by
      apply List.map_congr_left
      intro k hk
      have hak : a ≠ k := fun he => hnot (he ▸ hk)
      have hba : (k == a) = false := beq_eq_false_iff_ne.mpr (Ne.symm hak)
      simp [List.lookup, hba]
    rw [h1, h2]
    have h3 := ih hnd'
    unfold attr_key_sum at h3
    rw [h3]

lemma pair_contribution_ref (utilities : Utilities) (attr : String)
    (m : List (String × ℝ)) (hm : utilities.lookup attr = some m)
    (ref : String) (href : m.lookup ref = none) :
    pair_contribution utilities attr ref = -(attr_key_sum m) := by
  simp [pair_contribution, hm, href]

lemma pair_contribution_key (utilities : Utilities) (attr : String)
    (m : List (String × ℝ)) (hm : utilities.lookup attr = some m)
    (k : String) (c : ℝ) (hk : m.lookup k = some c) :
    pair_contribution utilities attr k = c := by
  simp [pair_contribution, hm, hk]

/-- **C4.** For every utility table and every attribute in it (with the
dict-faithful distinct keys), the utility reconstruction of
`scenario_utilities` assigns an implicit reference level exactly
`-(sum of the attribute's explicit coefficients)` — so a one-attribute
scenario choosing the reference totals `intercept - Σ coeffs` — and the
explicit coefficients together with the reconstructed reference contribution
sum to exactly 0 across all levels. -/
theorem C4_effects_coding_sum_to_zero (utilities : Utilities) (attr : String)
    (m : List (String × ℝ)) (hm : utilities.lookup attr = some m)
    (hnd : (m.map Prod.fst).Nodup) (ref : String) (href : m.lookup ref = none)
    (intercept : ℝ) :
    scenario_utilities [[(attr, ref)]] utilities intercept
      = [intercept - (m.map Prod.snd).sum]
    ∧ ((m.map Prod.fst ++ [ref]).map (pair_contribution utilities attr)).sum = 0 := by
  have hrefc := pair_contribution_ref utilities attr m hm ref href
  have hS := attr_key_sum_eq_sum_values m hnd
  constructor
  · simp only [scenario_utilities, List.map_cons, List.map_nil, List.sum_cons,
      List.sum_nil, add_zero]
    rw [hrefc, hS]
    simp [sub_eq_add_neg]
  · rw [List.map_append, List.sum_append]
    have h2 : (m.map Prod.fst).map (pair_contribution utilities attr)
        = (m.map Prod.fst).map (fun k => ((m.lookup k).getD 0)) := by
      apply List.map_congr_left
      intro k hk
      obtain ⟨c, hc⟩ := lookup_of_mem_keys m k hk
      rw [pair_contribution_key utilities attr m hm k c hc, hc]
      rfl
    rw [h2]
    have hfold : ((m.map Prod.fst).map (fun k => ((m.lookup k).getD 0))).sum
        = attr_key_sum m := rfl
    rw [hfold]
    simp [hrefc]

/-- Concrete check of C4: utilities `Price ↦ (Low ↦ 0.4, High ↦ -0.1)` with
implicit reference `Medium` reconstruct `Medium` as `-(0.4 + -0.1) = -0.3`,
and the level utilities sum to 0. -/
theorem C4_witness :
    ([("Price", [("Low", (0.4 : ℝ)), ("High", -0.1)])] : Utilities).lookup "Price"
        = some [("Low", (0.4 : ℝ)), ("High", -0.1)]
    ∧ (([("Low", (0.4 : ℝ)), ("High", -0.1)].map Prod.fst).Nodup)
    ∧ ([("Low", (0.4 : ℝ)), ("High", -0.1)] : List (String × ℝ)).lookup "Medium" = none
    ∧ scenario_utilities [[("Price", "Medium")]]
        [("Price", [("Low", (0.4 : ℝ)), ("High", -0.1)])] 0 = [(-0.3 : ℝ)]
    ∧ (([("Low", (0.4 : ℝ)), ("High", -0.1)].map Prod.fst ++ ["Medium"]).map
        (pair_contribution [("Price", [("Low", (0.4 : ℝ)), ("High", -0.1)])]
          "Price")).sum = 0 := by
  have h1 : ([("Price", [("Low", (0.4 : ℝ)), ("High", -0.1)])] : Utilities).lookup
      "Price" = some [("Low", (0.4 : ℝ)), ("High", -0.1)] := by
    simp [List.lookup]
  have h2 : (([("Low", (0.4 : ℝ)), ("High", -0.1)].map Prod.fst).Nodup) := by
    simp
  have h3 : ([("Low", (0.4 : ℝ)), ("High", -0.1)] : List (String × ℝ)).lookup
      "Medium" = none := by
    simp [List.lookup]
  have h := C4_effects_coding_sum_to_zero
    [("Price", [("Low", (0.4 : ℝ)), ("High", -0.1)])] "Price"
    [("Low", (0.4 : ℝ)), ("High", -0.1)] h1 h2 "Medium" h3 0
  refine ⟨h1, h2, h3, ?_, h.2⟩
  rw [h.1]
  norm_num

end Conjoint

/-! ## Claim C7: logit projection preserves existing share ratios -/

namespace Conjoint

lemma softmax_closed_form (x : List ℝ) (hne : x ≠ []) :
    softmax x = .ok (x.map (fun v => Real.exp v / (x.map Real.exp).sum)) := by
  obtain ⟨h, t, rfl⟩ := List.exists_cons_of_ne_nil hne
  have hstart : softmax (h :: t)
      = .ok (((h :: t).map (fun v => Real.exp (v - t.foldl max h))).map
        (fun e => e / ((h :: t).map (fun v => Real.exp (v - t.foldl max h))).sum)) := rfl
  rw [hstart]
  congr 1
  set m := t.foldl max h with hm
  have hsum : ((h :: t).map (fun w => Real.exp (w - m))).sum
      = Real.exp (-m) * ((h :: t).map Real.exp).sum := by
    have hcong : ((h :: t).map (fun w => Real.exp (w - m)))
        = ((h :: t).map (fun w => Real.exp (-m) * Real.exp w)) := by
      apply List.map_congr_left
      intro w _
      rw [← Real.exp_add]
      ring_nf
    rw [hcong, List.sum_map_mul_left]
  rw [List.map_map]
  apply List.map_congr_left
  intro v _
  simp only [Function.comp_apply]
  rw [hsum]
  have hv : Real.exp (v - m) = Real.exp (-m) * Real.exp v := by
    rw [← Real.exp_add]
    ring_nf
  rw [hv, mul_div_mul_left _ _ (Real.exp_ne_zero (-m))]

lemma sum_map_div (l : List ℝ) (d : ℝ) :
    (l.map (fun s => s / d)).sum = l.sum / d := by
  induction l with
  | nil => simp
  | cons h t ih => simp [ih, add_div]

/-- **C7.** For every list of strictly positive normalized market shares and
any entrant utility `u`, the `"logit"` projection with existing utilities
taken as log-shares yields exactly `share / (1 + e^u)` for each existing
product and `e^u / (1 + e^u)` for the entrant; the entrant receives the
remainder (all shares sum to 1), and pairwise ratios among existing products
equal the original share ratios (stated multiplicatively). -/
theorem C7_logit_projection_preserves_share_ratios (P : List OrigProduct)
    (shares : List ℝ) (u : ℝ) (hpos : ∀ s ∈ shares, 0 < s)
    (hsum : shares.sum = 1) :
    project_market_shares_with_new_product P u (existing_utilities_of shares) "logit"
      = .ok (shares.map (fun s => s / (1 + Real.exp u))
        ++ [Real.exp u / (1 + Real.exp u)])
    ∧ (shares.map (fun s => s / (1 + Real.exp u))).sum
        + Real.exp u / (1 + Real.exp u) = 1
    ∧ ∀ i j, ((shares.map (fun s => s / (1 + Real.exp u))).getD i 0) * (shares.getD j 0)
        = ((shares.map (fun s => s / (1 + Real.exp u))).getD j 0) * (shares.getD i 0) := by
  have hlog : existing_utilities_of shares = shares.map Real.log := by
    unfold existing_utilities_of
    apply List.map_congr_left
    intro s hs
    simp [hpos s hs]
  have hex : ((shares.map Real.log ++ [u]).map Real.exp) = shares ++ [Real.exp u] := by
    rw [List.map_append, List.map_map]
    have h1 : shares.map (Real.exp ∘ Real.log) = shares := by
      conv_rhs => rw [← List.map_id shares]
      apply List.map_congr_left
      intro s hs
      simp only [Function.comp_apply, id]
      exact Real.exp_log (hpos s hs)
    rw [h1]
    simp
  have hd : ((shares ++ [Real.exp u]).sum) = 1 + Real.exp u := by
    rw [List.sum_append, hsum]
    simp
  have hproj : project_market_shares_with_new_product P u
      (existing_utilities_of shares) "logit"
      = softmax (shares.map Real.log ++ [u]) := by
    rw [← hlog]
    rfl
  have hne : shares.map Real.log ++ [u] ≠ [] := by simp
  have hsm := softmax_closed_form (shares.map Real.log ++ [u]) hne
  refine ⟨?_, ?_, ?_⟩
  · rw [hproj, hsm, hex, hd]
    congr 1
    rw [List.map_append, List.map_map]
    congr 1
    apply List.map_congr_left
    intro s hs
    simp only [Function.comp_apply]
    rw [Real.exp_log (hpos s hs)]
  · rw [sum_map_div, hsum]
    have hD : (1 : ℝ) + Real.exp u ≠ 0 := by positivity
    field_simp
  · intro i j
    rcases hi : shares[i]? with _ | si <;> rcases hj : shares[j]? with _ | sj <;>
      simp [List.getD_eq_getElem?_getD, List.getElem?_map, hi, hj] <;> ring

/-- Concrete check of C7 at shares `[0.5, 0.5]` and entrant utility 0. -/
theorem C7_witness :
    (∀ s ∈ ([0.5, 0.5] : List ℝ), 0 < s) ∧ ([0.5, 0.5] : List ℝ).sum = 1
    ∧ project_market_shares_with_new_product [] 0
        (existing_utilities_of [0.5, 0.5]) "logit"
      = .ok (([0.5, 0.5] : List ℝ).map (fun s => s / (1 + Real.exp 0))
        ++ [Real.exp 0 / (1 + Real.exp 0)]) := by
  have hpos : ∀ s ∈ ([0.5, 0.5] : List ℝ), 0 < s := by
    intro s hs
    simp only [List.mem_cons, List.not_mem_nil, or_false] at hs
    rcases hs with h | h <;> subst h <;> norm_num
  have hsum : ([0.5, 0.5] : List ℝ).sum = 1 := by norm_num
  exact ⟨hpos, hsum,
    (C7_logit_projection_preserves_share_ratios [] [0.5, 0.5] 0 hpos hsum).1⟩

end Conjoint

/-! ## Claim C10: unknown scenario levels never fail simulation -/

namespace Conjoint

lemma simulate_validate_ok (utilities : Utilities) (scenarios : List Scenario)
    (hcov : ∀ s ∈ scenarios, ∀ a ∈ utilities.map Prod.fst,
      ∃ v, s.lookup a = some v ∧ pyStrip v ≠ "") :
    simulate_validate utilities scenarios = .ok () := by
  induction scenarios with
  | nil => rfl
  | cons s t ih =>
    have hmiss : (utilities.map Prod.fst).filter (fun a =>
        match s.lookup a with
        | none => true
        | some v => pyStrip v = "") = [] := by
      rw [List.filter_eq_nil]
      intro a ha
      obtain ⟨v, hv, hvne⟩ := hcov s (List.mem_cons_self s t) a ha
      simp [hv, hvne]
    have ht : ∀ s' ∈ t, ∀ a ∈ utilities.map Prod.fst,
        ∃ v, s'.lookup a = some v ∧ pyStrip v ≠ "" :=
      fun s' h' => hcov s' (List.mem_cons_of_mem _ h')
    unfold simulate_validate
    rw [hmiss]
    simpa using ih ht

/-- **C10.** For every simulate call with a recognized rule whose scenarios
supply a non-empty level string for every attribute of the utility table
(and, under `"logit"`, at least one scenario, since `np.max` rejects an
empty array), the call succeeds regardless of the level values: no
level-membership condition appears anywhere in the hypotheses.  The response
utilities are computed by `scenario_utilities`, and a level absent from an
attribute's estimated coefficients contributes exactly the reconstructed
reference utility `-(sum of that attribute's coefficients)`. -/
theorem C10_simulate_tolerates_unknown_levels (req : SimulateRequest)
    (hrule : req.rule = "logit" ∨ req.rule = "first_choice")
    (hne : req.rule = "logit" → req.scenarios ≠ [])
    (hcov : ∀ s ∈ req.scenarios, ∀ a ∈ req.utilities.map Prod.fst,
      ∃ v, s.lookup a = some v ∧ pyStrip v ≠ "") :
    (∃ resp, simulate req = .ok resp ∧
      resp.utilities = scenario_utilities req.scenarios req.utilities req.intercept)
    ∧ ∀ attr lvl, ((req.utilities.lookup attr).getD []).lookup lvl = none →
      pair_contribution req.utilities attr lvl
        = -(attr_key_sum ((req.utilities.lookup attr).getD [])) := by
  have hval := simulate_validate_ok req.utilities req.scenarios hcov
  constructor
  · rcases hrule with h | h
    · have hlen : scenario_utilities req.scenarios req.utilities req.intercept ≠ [] := by
        unfold scenario_utilities
        simpa using hne h
      have hsm := softmax_closed_form
        (scenario_utilities req.scenarios req.utilities req.intercept) hlen
      refine ⟨{ utilities := scenario_utilities req.scenarios req.utilities req.intercept
                shares := (scenario_utilities req.scenarios req.utilities
                    req.intercept).map (fun v => Real.exp v /
                  (((scenario_utilities req.scenarios req.utilities
                    req.intercept).map Real.exp).sum)) }, ?_, rfl⟩
      simp only [simulate, hval, h, hsm]
      rfl
    · refine ⟨{ utilities := scenario_utilities req.scenarios req.utilities req.intercept
                shares := (scenario_utilities req.scenarios req.utilities
                    req.intercept).enum.map (fun p =>
                  if p.1 = np_argmax (scenario_utilities req.scenarios req.utilities
                    req.intercept) then (1 : ℝ) else 0) }, ?_, rfl⟩
      simp only [simulate, hval, h]
      rfl
  · intro attr lvl hnone
    simp [pair_contribution, hnone]

/-- Concrete check of C10: a scenario whose level `"Lo"` is a misspelling of
the estimated level `"Low"` still simulates successfully. -/
theorem C10_witness :
    (("logit" : String) = "logit" ∨ ("logit" : String) = "first_choice")
    ∧ (∃ resp,
        simulate { intercept := 0
                   utilities := [("Price", [("Low", (0.4 : ℝ)), ("High", -0.1)])]
                   scenarios := [[("Price", "Lo")]]
                   rule := "logit" } = .ok resp ∧
        resp.utilities = scenario_utilities [[("Price", "Lo")]]
          [("Price", [("Low", (0.4 : ℝ)), ("High", -0.1)])] 0) := by
  have h := C10_simulate_tolerates_unknown_levels
    { intercept := 0
      utilities := [("Price", [("Low", (0.4 : ℝ)), ("High", -0.1)])]
      scenarios := [[("Price", "Lo")]]
      rule := "logit" }
    (Or.inl rfl) (fun _ => by simp)
    (by
      intro s hs a ha
      simp only [List.mem_singleton] at hs
      subst hs
      simp only [List.map_cons, List.map_nil, List.mem_singleton] at ha
      subst ha
      exact ⟨"Lo", by decide, by decide⟩)
  exact ⟨Or.inl rfl, h.1⟩

end Conjoint

/-! ## Claim C2: choice index beyond the real alternatives -/

namespace Conjoint

lemma resolve_design_entry_empty (brand : String) (an : Option String) :
    resolve_design_entry [] [] brand an = none := by
  cases an <;> rfl

lemma process_slot_no_design (brand : String) (row : Row) (sc : SlotCols)
    (st : List (String × String) × List String × Bool) :
    process_slot [] [] brand row sc st = st := by
  rcases sc with ⟨hdr, val⟩
  cases val with
  | none => rfl
  | some value_col =>
    unfold process_slot
    simp only [resolve_design_entry_empty]
    by_cases hskip : (isna (rowGetD row value_col) = true ∨ rowGetD row value_col = .str "")
    · simp [hskip]
    · simp [hskip]

/-- **C2 counterexample.** A wide export with the single choice column
`QC1_1` holding `3` and two alternative attribute column groups
(`hATTR_BRANDA_1c1`, `hATTR_BRANDB_1c1`): the claim says the task is dropped
as an invalid choice and the conversion fails with a `ConversionError`, but
the conversion **succeeds** with three long rows — the choice index `3 > 2`
sets the none-option flag (`app.py` 1006-1007), the synthesized third
alternative absorbs the choice (`app.py` 1074-1082), the assembled row count
is 3 so neither skip guard fires — and every skip tally is zero. -/
theorem C2_counterexample :
    parse_survey_export_to_long_noDesign
      { cols := ["QC1_1", "hATTR_BRANDA_1c1", "hATTR_BRANDB_1c1"]
        rows := [[("QC1_1", .num 3), ("hATTR_BRANDA_1c1", .num 101),
                  ("hATTR_BRANDB_1c1", .num 201)]] }
      = .ok { long := [⟨1, 1, 1, 0, []⟩, ⟨1, 1, 2, 0, []⟩, ⟨1, 1, 3, 1, []⟩]
              schema := []
              skipped_tasks := 0, skipped_missing_alts := 0, skipped_choice := 0 } := by
  rfl

/-- **C2 (amended).** For a wide survey export whose single choice column
`QC1_1` holds `3` while only 2 alternative attribute column groups are
present (whatever the two attribute cells hold), the converter synthesizes a
third `"none"` alternative which absorbs the choice, keeps the task, and the
conversion succeeds with exactly those three long-format rows and zero
invalid-choice tallies; no `ConversionError` is raised. -/
theorem C2_none_option_synthesized (c1 c2 : Cell) :
    parse_survey_export_to_long_noDesign
      { cols := ["QC1_1", "hATTR_BRANDA_1c1", "hATTR_BRANDB_1c1"]
        rows := [[("QC1_1", .num 3), ("hATTR_BRANDA_1c1", c1),
                  ("hATTR_BRANDB_1c1", c2)]] }
      = .ok { long := [⟨1, 1, 1, 0, []⟩, ⟨1, 1, 2, 0, []⟩, ⟨1, 1, 3, 1, []⟩]
              schema := []
              skipped_tasks := 0, skipped_missing_alts := 0, skipped_choice := 0 } := by
  simp only [parse_survey_export_to_long_noDesign, process_task, process_slot_no_design]
  rfl

end Conjoint

/-! ## Claim C1: the two-sheet estimation endpoint -/

namespace Conjoint

lemma exists_error_of_bind_error {α β : Type} (x : Except String α)
    (g : α → Except String β) (hg : ∀ a, ∃ e, g a = .error e) :
    ∃ e, (x >>= g) = .error e := by
  rcases x with e | a
  · exact ⟨e, rfl⟩
  · simpa using hg a

lemma two_sheets_body_errors (dfData : DataFrame) (attributes : List AttrDef)
    (chosen_col : String)
    (fitOracle : DesignMatrix → List Int → String → Nat → Except String FitOutcome) :
    ∃ e, two_sheets_body dfData attributes chosen_col fitOracle = .error e := by
  unfold two_sheets_body
  by_cases h0 : ({ dfData with
      rows := dfData.rows.filter (fun r => !(isnaOpt (rowGet r chosen_col))) } :
        DataFrame).rows.length = 0
  · rw [if_pos h0]
    exact ⟨"No valid choice data found after removing missing values", rfl⟩
  · rw [if_neg h0]
    apply exists_error_of_bind_error
    intro u
    apply exists_error_of_bind_error
    intro y
    exact ⟨"name 'attributes_schema' is not defined", rfl⟩

lemma estimate_core_errors (dfData dfDefs : DataFrame) (rc tc ac cc : String)
    (fitOracle : DesignMatrix → List Int → String → Nat → Except String FitOutcome) :
    ∃ e, estimate_from_two_sheets_core dfData dfDefs rc tc ac cc fitOracle
      = .error e := by
  unfold estimate_from_two_sheets_core
  apply exists_error_of_bind_error
  intro attrs
  apply exists_error_of_bind_error
  intro u
  obtain ⟨e, he⟩ := two_sheets_body_errors dfData attrs cc fitOracle
  refine ⟨"Estimation failed: " ++ e, ?_⟩
  rw [he]
  rfl

/-- **C1.** The claim states that every valid two-sheet workbook estimates
successfully; in fact the endpoint can never succeed: its body reads the
local name `attributes_schema` (`app.py` line 459) while the parsed
definitions were bound to `attributes` (line 433), so every call that
reaches the design-matrix step raises
`NameError: name 'attributes_schema' is not defined` and is surfaced as an
HTTP 400 `Estimation failed: ...`.  First conjunct: a fully valid workbook
(data sheet with the four id columns and a `Price` column, definitions sheet
declaring categorical `Price` with levels `Low, High`) produces exactly that
error.  Second conjunct: no input and no solver behavior can make the call
return a result. -/
theorem C1_estimate_from_two_sheets_never_succeeds :
    estimate_from_two_sheets_core
      { cols := ["resp_id", "task_id", "alt_id", "chosen", "Price"]
        rows := [[("resp_id", .num 1), ("task_id", .num 1), ("alt_id", .num 1),
                  ("chosen", .num 1), ("Price", .str "Low")],
                 [("resp_id", .num 1), ("task_id", .num 1), ("alt_id", .num 2),
                  ("chosen", .num 0), ("Price", .str "High")]] }
      { cols := ["name", "type", "levels"]
        rows := [[("name", .str "Price"), ("type", .str "categorical"),
                  ("levels", .str "Low,High")]] }
      "resp_id" "task_id" "alt_id" "chosen"
      (fun _ _ _ _ => .error "never consulted")
      = .error "Estimation failed: name 'attributes_schema' is not defined"
    ∧ ∀ (dfData dfDefs : DataFrame) (rc tc ac cc : String)
      (fitOracle : DesignMatrix → List Int → String → Nat → Except String FitOutcome),
      ∃ e, estimate_from_two_sheets_core dfData dfDefs rc tc ac cc fitOracle
        = .error e := by
  exact ⟨rfl, estimate_core_errors⟩

end Conjoint

/-! ## Claim C6: statelessness and determinism of the calls -/

namespace Conjoint

lemma analyzeBody_empty_req (i : ℝ) (u : Utilities) (rule : String) :
    analyzeBody { intercept := i, utilities := u, original_market_shares := []
                  new_scenarios := [], rule := rule }
      = .ok (originalScenario { intercept := i, utilities := u
                                original_market_shares := []
                                new_scenarios := [], rule := rule },
          [], none) := by
  unfold analyzeBody
  rfl

/-- **C6 counterexample.** Two `analyze_scenarios` calls with identical
request inputs are **not** identical responses: the response embeds the
wall-clock reading `datetime.now().isoformat()` (`app.py` 730) in
`diagnostics.analysis_timestamp`, so the same request evaluated at two
different instants yields two different responses. -/
theorem C6_counterexample :
    analyze_scenarios
        { intercept := 0, utilities := [], original_market_shares := []
          new_scenarios := [], rule := "logit" } "2024-01-01T00:00:00"
      ≠ analyze_scenarios
        { intercept := 0, utilities := [], original_market_shares := []
          new_scenarios := [], rule := "logit" } "2024-01-01T00:00:01" := by
  intro h
  unfold analyze_scenarios at h
  rw [analyzeBody_empty_req] at h
  simp [Except.map, Except.mapError] at h

/-- **C6 (amended).** Every `analyze_scenarios` response is fully determined
by the request except for the single `diagnostics.analysis_timestamp` field,
which carries the wall clock: projecting the timestamp away, two calls with
identical inputs agree on the original scenario, every projected scenario,
the market impact, and the remaining diagnostics.  (`simulate` and the
estimation calls read no clock at all: their embeddings `simulate` and
`estimate_from_two_sheets_core` are functions of the request alone.) -/
theorem C6_deterministic_up_to_timestamp (req : ScenarioAnalysisRequest)
    (t1 t2 : String) :
    (analyze_scenarios req t1).map (fun r =>
      (r.original_scenario, r.projected_scenarios, r.market_impact,
        r.diagnostics.total_scenarios, r.diagnostics.choice_rule))
    = (analyze_scenarios req t2).map (fun r =>
      (r.original_scenario, r.projected_scenarios, r.market_impact,
        r.diagnostics.total_scenarios, r.diagnostics.choice_rule)) := by
  unfold analyze_scenarios
  cases hb : analyzeBody req with
  | error e => rfl
  | ok r => rfl

end Conjoint

namespace Conjoint

lemma ok_bind {α β : Type} (a : α) (f : α → Except String β) :
    ((.ok a : Except String α) >>= f) = f a := rfl

lemma mapM_ok_of_forall {α β : Type} (l : List α) (f : α → Except String β)
    (h : ∀ x ∈ l, ∃ b, f x = .ok b) : ∃ bs, l.mapM f = .ok bs := by
  induction l with
  | nil => exact ⟨[], rfl⟩
  | cons a t ih =>
    obtain ⟨b, hb⟩ := h a (List.mem_cons_self a t)
    obtain ⟨bs, hbs⟩ := ih (fun x hx => h x (List.mem_cons_of_mem a hx))
    refine ⟨b :: bs, ?_⟩
    rw [List.mapM_cons, hb]
    rw [ok_bind, hbs]
    rfl

lemma fst_lt_of_mem_enumFrom {α : Type} :
    ∀ (l : List α) (n : Nat) (p : Nat × α), p ∈ l.enumFrom n → p.1 < n + l.length := by
  intro l
  induction l with
  | nil => intro n p hp; simp [List.enumFrom] at hp
  | cons a t ih =>
    intro n p hp
    rcases List.mem_cons.mp hp with h | h
    · subst h; simp
    · have := ih (n + 1) p h
      simp only [List.length_cons]
      omega

lemma fst_lt_of_mem_enum {α : Type} (l : List α) (p : Nat × α)
    (hp : p ∈ l.enum) : p.1 < l.length := by
  have := fst_lt_of_mem_enumFrom l 0 p hp
  omega

lemma listGetE_ok {α : Type} (l : List α) (i : Nat) (h : i < l.length) :
    ∃ v, listGetE l i = .ok v := by
  unfold listGetE
  rw [List.getElem?_eq_getElem h]
  exact ⟨_, rfl⟩

lemma listLastE_ok {α : Type} (l : List α) (h : l ≠ []) :
    ∃ v, listLastE l = .ok v := by
  unfold listLastE
  cases hl : l.getLast? with
  | none => exact absurd (List.getLast?_eq_none_iff.mp hl) h
  | some v => exact ⟨v, rfl⟩

lemma normalize_length (shares : List ℝ) :
    (normalize_market_shares shares).length = shares.length := by
  unfold normalize_market_shares
  by_cases h : shares.sum = 0 <;> simp [h]

lemma project_ok_length (ops : List OrigProduct) (nu : ℝ) (ex : List ℝ)
    (rule : String) (hv : rule = "logit" ∨ rule = "first_choice") :
    ∃ L, project_market_shares_with_new_product ops nu ex rule = .ok L
      ∧ L.length = ex.length + 1 := by
  rcases hv with h | h
  · have hne : ex ++ [nu] ≠ [] := by simp
    have hsm := softmax_closed_form (ex ++ [nu]) hne
    refine ⟨(ex ++ [nu]).map (fun v => Real.exp v / ((ex ++ [nu]).map Real.exp).sum),
      ?_, ?_⟩
    · unfold project_market_shares_with_new_product
      rw [if_pos h]
      exact hsm
    · simp
  · refine ⟨(ex ++ [nu]).enum.map (fun p =>
        if p.1 = np_argmax (ex ++ [nu]) then (1 : ℝ) else 0), ?_, ?_⟩
    · unfold project_market_shares_with_new_product
      rw [if_neg (by rw [h]; decide), if_pos h]
    · simp [List.enum_length]

lemma projectOne_ok (i : ℝ) (u : Utilities) (rule : String)
    (ops : List OrigProduct) (osn : List ℝ) (idx : Nat) (s : Scenario)
    (hlen : ops.length ≤ osn.length)
    (hv : rule = "logit" ∨ rule = "first_choice") :
    ∃ scn, projectOne i u rule ops osn idx s = .ok scn := by
  obtain ⟨L, hL, hLlen⟩ := project_ok_length ops
    ((scenario_utilities [s] u i).headI) (existing_utilities_of osn) rule hv
  have hexlen : (existing_utilities_of osn).length = osn.length := by
    simp [existing_utilities_of]
  have hrows : ∀ p ∈ ops.enum, ∃ b,
      (do
        let ps ← listGetE L p.1
        let os ← listGetE osn p.1
        pure ({ name := p.2.name, rowNumber := p.2.rowNumber
                currentShare := p.2.currentShare, marketShare := ps
                change := some (ps - os) } : ProductOut) :
          Except String ProductOut) = .ok b := by
    intro p hp
    have hplt : p.1 < ops.length := fst_lt_of_mem_enum ops p hp
    obtain ⟨v1, hv1⟩ := listGetE_ok L p.1 (by omega)
    obtain ⟨v2, hv2⟩ := listGetE_ok osn p.1 (by omega)
    refine ⟨{ name := p.2.name, rowNumber := p.2.rowNumber
              currentShare := p.2.currentShare, marketShare := v1
              change := some (v1 - v2) }, ?_⟩
    rw [hv1, ok_bind, hv2, ok_bind]
    rfl
  obtain ⟨PR, hPR⟩ := mapM_ok_of_forall ops.enum _ hrows
  have hLne : L ≠ [] := by
    intro hc
    rw [hc] at hLlen
    simp at hLlen
  obtain ⟨last, hlast⟩ := listLastE_ok L hLne
  refine ⟨{ scenario_name := "Scenario " ++ toString (idx + 1)
            products := PR ++
              [{ name := "New Product " ++ toString (idx + 1)
                 rowNumber := (ops.length : Int) + (idx : Int) + 1
                 currentShare := 0, marketShare := last, change := some last }]
            total_share := L.sum }, ?_⟩
  simp only [projectOne]
  rw [hL, ok_bind, hPR, ok_bind, hlast, ok_bind]
  rfl

lemma projectOne_unknown_rule (i : ℝ) (u : Utilities) (rule : String)
    (ops : List OrigProduct) (osn : List ℝ) (idx : Nat) (s : Scenario)
    (h1 : rule ≠ "logit") (h2 : rule ≠ "first_choice") :
    projectOne i u rule ops osn idx s
      = .error ("Unknown choice rule: " ++ rule) := by
  simp only [projectOne, project_market_shares_with_new_product,
    if_neg h1, if_neg h2]
  rfl

end Conjoint

namespace Conjoint

lemma pure_bind_except {α β : Type} (a : α) (f : α → Except String β) :
    ((pure a : Except String α) >>= f) = f a := rfl

/-- **C9.** The `market_impact` block of a scenario-analysis response is
computed exclusively from the first projected scenario (`app.py` 707-719):
two requests that agree on intercept, utilities, original market shares and
rule, and whose new-scenario lists have the same head, produce identical
`market_impact` blocks — later scenarios have no effect; and with zero new
scenarios the call succeeds with `market_impact` the empty mapping. -/
theorem C9_market_impact_first_scenario_only
    (req req' : ScenarioAnalysisRequest) (t t' : String)
    (hi : req.intercept = req'.intercept) (hu : req.utilities = req'.utilities)
    (hs : req.original_market_shares = req'.original_market_shares)
    (hr : req.rule = req'.rule)
    (hh : req.new_scenarios.head? = req'.new_scenarios.head?) :
    (analyze_scenarios req t).map (fun r => r.market_impact)
      = (analyze_scenarios req' t').map (fun r => r.market_impact)
    ∧ (req.new_scenarios = [] →
        (analyze_scenarios req t).map (fun r => r.market_impact) = .ok none) := by
  have hops : origProducts req' = origProducts req := by
    unfold origProducts
    rw [hs]
  have hosn : originalSharesNormalized req' = originalSharesNormalized req := by
    unfold originalSharesNormalized
    rw [hs]
  have horig : originalScenario req' = originalScenario req := by
    unfold originalScenario
    rw [hops, hosn]
  have hf : (fun p : Nat × Scenario => projectOne req'.intercept req'.utilities
        req'.rule (origProducts req') (originalSharesNormalized req') p.1 p.2)
      = (fun p : Nat × Scenario => projectOne req.intercept req.utilities
        req.rule (origProducts req) (originalSharesNormalized req) p.1 p.2) := by
    rw [hi, hu, hr, hops, hosn]
  rcases hns : req.new_scenarios with _ | ⟨s0, rest⟩
  · have hns' : req'.new_scenarios = [] := by
      rw [hns] at hh
      cases hcase : req'.new_scenarios with
      | nil => rfl
      | cons a l => rw [hcase] at hh; simp at hh
    have hb : analyzeBody req = .ok (originalScenario req, [], none) := by
      unfold analyzeBody
      rw [hns]
      rfl
    have hb' : analyzeBody req' = .ok (originalScenario req', [], none) := by
      unfold analyzeBody
      rw [hns']
      rfl
    constructor
    · unfold analyze_scenarios
      rw [hb, hb']
      rfl
    · intro _
      unfold analyze_scenarios
      rw [hb]
      rfl
  · constructor
    swap
    · intro hc
      exact absurd hc (List.cons_ne_nil s0 rest)
    obtain ⟨rest', hns'⟩ : ∃ rest', req'.new_scenarios = s0 :: rest' := by
      rw [hns] at hh
      cases hcase : req'.new_scenarios with
      | nil => rw [hcase] at hh; simp at hh
      | cons a l =>
        rw [hcase] at hh
        simp at hh
        exact ⟨l, by rw [hh]⟩
    by_cases hv : req.rule = "logit" ∨ req.rule = "first_choice"
    · have hlen2 : (origProducts req).length ≤
          (originalSharesNormalized req).length := by
        unfold origProducts originalSharesNormalized
        rw [normalize_length]
        simp
      have hallok : ∀ (p : Nat × Scenario), ∃ scn,
          projectOne req.intercept req.utilities req.rule (origProducts req)
            (originalSharesNormalized req) p.1 p.2 = .ok scn :=
        fun p => projectOne_ok _ _ _ _ _ p.1 p.2 hlen2 hv
      obtain ⟨x0, hx0⟩ := hallok (0, s0)
      obtain ⟨PS, hPS⟩ := mapM_ok_of_forall (rest.enumFrom 1) _
        (fun x _ => hallok x)
      obtain ⟨PS', hPS'⟩ := mapM_ok_of_forall (rest'.enumFrom 1) _
        (fun x _ => hallok x)
      have hb : analyzeBody req
          = (computeImpact (originalScenario req) (x0 :: PS) >>= fun mi =>
              pure (originalScenario req, x0 :: PS, mi)) := by
        unfold analyzeBody
        rw [hns, show (s0 :: rest).enum = (0, s0) :: rest.enumFrom 1 from rfl,
          List.mapM_cons, hx0, ok_bind, hPS, ok_bind, pure_bind_except]
      have hb' : analyzeBody req'
          = (computeImpact (originalScenario req) (x0 :: PS') >>= fun mi =>
              pure (originalScenario req, x0 :: PS', mi)) := by
        unfold analyzeBody
        rw [hns', hf, horig,
          show (s0 :: rest').enum = (0, s0) :: rest'.enumFrom 1 from rfl,
          List.mapM_cons, hx0, ok_bind, hPS', ok_bind, pure_bind_except]
      have himp : computeImpact (originalScenario req) (x0 :: PS')
          = computeImpact (originalScenario req) (x0 :: PS) := rfl
      unfold analyze_scenarios
      rw [hb, hb', himp]
      rcases hci : computeImpact (originalScenario req) (x0 :: PS) with e | mi <;>
        simp [Except.map, Except.mapError]
    · push_neg at hv
      have hb : analyzeBody req
          = .error ("Unknown choice rule: " ++ req.rule) := by
        unfold analyzeBody
        rw [hns, show (s0 :: rest).enum = (0, s0) :: rest.enumFrom 1 from rfl,
          List.mapM_cons,
          projectOne_unknown_rule req.intercept req.utilities req.rule
            (origProducts req) (originalSharesNormalized req) 0 s0 hv.1 hv.2]
        rfl
      have hb' : analyzeBody req'
          = .error ("Unknown choice rule: " ++ req.rule) := by
        unfold analyzeBody
        rw [hns', hf,
          show (s0 :: rest').enum = (0, s0) :: rest'.enumFrom 1 from rfl,
          List.mapM_cons,
          projectOne_unknown_rule req.intercept req.utilities req.rule
            (origProducts req) (originalSharesNormalized req) 0 s0 hv.1 hv.2]
        rfl
      unfold analyze_scenarios
      rw [hb, hb']
      rfl

end Conjoint

namespace Conjoint

/-- Concrete check of C9: a request with two new scenarios and the same
request with the second scenario dropped yield the same market-impact
block; a request with no new scenarios yields the empty impact. -/
theorem C9_witness :
    (([[("Price", "Low")], [("Price", "High")]] : List Scenario).head?
        = ([[("Price", "Low")]] : List Scenario).head?)
    ∧ (analyze_scenarios
        { intercept := 0
          utilities := [("Price", [("Low", (0.4 : ℝ)), ("High", -0.1)])]
          original_market_shares := [⟨some "A", some 1, some 0.6⟩]
          new_scenarios := [[("Price", "Low")], [("Price", "High")]]
          rule := "logit" } "T1").map (fun r => r.market_impact)
      = (analyze_scenarios
        { intercept := 0
          utilities := [("Price", [("Low", (0.4 : ℝ)), ("High", -0.1)])]
          original_market_shares := [⟨some "A", some 1, some 0.6⟩]
          new_scenarios := [[("Price", "Low")]]
          rule := "logit" } "T2").map (fun r => r.market_impact)
    ∧ (analyze_scenarios
        { intercept := 0
          utilities := [("Price", [("Low", (0.4 : ℝ)), ("High", -0.1)])]
          original_market_shares := [⟨some "A", some 1, some 0.6⟩]
          new_scenarios := [], rule := "logit" } "T3").map
          (fun r => r.market_impact) = .ok none := by
  have h1 := C9_market_impact_first_scenario_only
    { intercept := 0
      utilities := [("Price", [("Low", (0.4 : ℝ)), ("High", -0.1)])]
      original_market_shares := [⟨some "A", some 1, some 0.6⟩]
      new_scenarios := [[("Price", "Low")], [("Price", "High")]]
      rule := "logit" }
    { intercept := 0
      utilities := [("Price", [("Low", (0.4 : ℝ)), ("High", -0.1)])]
      original_market_shares := [⟨some "A", some 1, some 0.6⟩]
      new_scenarios := [[("Price", "Low")]]
      rule := "logit" } "T1" "T2" rfl rfl rfl rfl rfl
  have h2 := C9_market_impact_first_scenario_only
    { intercept := 0
      utilities := [("Price", [("Low", (0.4 : ℝ)), ("High", -0.1)])]
      original_market_shares := [⟨some "A", some 1, some 0.6⟩]
      new_scenarios := [], rule := "logit" }
    { intercept := 0
      utilities := [("Price", [("Low", (0.4 : ℝ)), ("High", -0.1)])]
      original_market_shares := [⟨some "A", some 1, some 0.6⟩]
      new_scenarios := [], rule := "logit" } "T3" "T3" rfl rfl rfl rfl rfl
  exact ⟨rfl, h1.1, h2.2 rfl⟩

end Conjoint
